import Mathlib

/-!
Verification of the capability-probing compatibility layer of
`android-api-rs` (crates `android_api_util` and `android_notif`).

The host runtime (the JVM reached through JNI) is external to the
repository; following spec §6 it is modelled as a fixed response table
(`Host`) for the reflective call surface, together with explicit
host-visible state (`HState`): the log of issued calls and the single
pending-exception slot.  Computations of the embedded code live in the
state monad `M`, which short-circuits on `jni` errors exactly like the
Rust `?` operator.
-/

set_option autoImplicit false

namespace Android

/-- Object handles of the host runtime (`jni` `JObject`); `Obj.null` models
the null reference returned by `exception_occurred` when nothing is pending. -/
structure Obj where
  id : Nat
deriving DecidableEq, Repr

def Obj.null : Obj := ⟨0⟩

/-- Class handles of the host runtime (`jni` `JClass`). -/
structure Cls where
  id : Nat
deriving DecidableEq, Repr

/-- Values crossing the boundary (`jni` `JValue`), restricted to the variants
the embedded code uses. -/
inductive Val where
  | int (n : Int)
  | obj (o : Obj)
  | bool (b : Bool)
deriving DecidableEq, Repr

/-- `jni::errors::Error`, restricted to the variants the embedded code uses;
`other` stands for the remaining error kinds (malformed signature, transport
errors, ...), none of which is `JavaException`. -/
inductive JError where
  | javaException
  | fieldNotFound (name sig : String)
  | wrongJValueType
  | other (n : Nat)
deriving DecidableEq, Repr

/-- `JValue::i()`: extract a Java `int`, else `WrongJValueType`. -/
def Val.i : Val → Except JError Int
  | .int n => .ok n
  | _ => .error .wrongJValueType

/-- `JValue::l()`: extract an object, else `WrongJValueType`. -/
def Val.l : Val → Except JError Obj
  | .obj o => .ok o
  | _ => .error .wrongJValueType

/-- One issued cross-boundary call, recorded in the host-side call log. -/
inductive Call where
  | findClass (name : String)
  | getField (o : Obj) (name sig : String)
  | getStaticField (c : Cls) (name sig : String)
  | callMethod (o : Obj) (name sig : String) (args : List Val)
  | callStaticMethod (c : Cls) (name sig : String) (args : List Val)
  | newObject (c : Cls) (sig : String) (args : List Val)
  | newString (s : String)
  | exceptionOccurred
  | exceptionClear
  | throwCall (e : Obj)
  | isInstanceOf (o : Obj) (c : Cls)
deriving DecidableEq, Repr

/-- Host-visible state: the log of issued calls, and the pending-exception
slot ("pending-fault state" in the spec). -/
structure HState where
  log : List Call
  pending : Option Obj
deriving DecidableEq, Repr

/-- Outcome the host gives to one raw reflective call: success, failure with
an exception now pending (`jni` returns `Error::JavaException` in that case),
or failure without a pending exception (any other `Error`). -/
inductive RawRes (T : Type) where
  | ok (v : T)
  | exc (e : Obj)
  | err (e : JError)
deriving DecidableEq, Repr

/-- The host runtime's reflective call surface (spec §6), as a fixed response
per call; `isInst` is the host's "is instance of" relation on its objects. -/
structure Host where
  isInst : Obj → Cls → Bool
  findClass : String → RawRes Cls
  getField : Obj → String → String → RawRes Val
  getStaticField : Cls → String → String → RawRes Val
  callMethod : Obj → String → String → List Val → RawRes Val
  callStaticMethod : Cls → String → String → List Val → RawRes Val
  newObject : Cls → String → List Val → RawRes Obj
  newString : String → RawRes Obj

/-- Computations of the embedded Rust code: state-threading over `HState`,
short-circuiting on `JError` exactly like the Rust `?` operator. -/
def M (T : Type) : Type := HState → Except JError T × HState

instance : Monad M where
  pure a := fun st => (.ok a, st)
  bind m f := fun st =>
    match m st with
    | (.ok a, st1) => f a st1
    | (.error e, st1) => (.error e, st1)

/-- `return Err(e)`. -/
def throwM {T : Type} (e : JError) : M T := fun st => (.error e, st)

/-- Lift a pure `Result` value (`?` on a non-call expression). -/
def exceptLift {T : Type} (r : Except JError T) : M T := fun st => (r, st)

/-- Run a computation and reify its outcome as a value instead of
short-circuiting (the Rust idiom of binding a `Result` before matching). -/
def attempt {T : Type} (m : M T) : M (Except JError T) := fun st =>
  let p := m st
  (.ok p.1, p.2)

/-- Issue one raw cross-boundary call with response `r`: the call is logged;
on `exc e` the exception `e` becomes pending and `Error::JavaException` is
returned, matching the `jni` crate's convention. -/
def rawToM {T : Type} (c : Call) (r : RawRes T) : M T := fun st =>
  let st1 : HState := { st with log := st.log ++ [c] }
  match r with
  | .ok v => (.ok v, st1)
  | .exc e => (.error .javaException, { st1 with pending := some e })
  | .err e => (.error e, st1)

/-- `CompatEnv` (src/android_api_util/src/lib.rs:11-21): the execution
context plus the six pre-resolved symbol-absent signal classes. -/
structure CompatEnv where
  host : Host
  context : Obj
  class_not_found_exception : Cls
  no_such_field_exception : Cls
  no_such_method_exception : Cls
  no_class_def_found_error : Cls
  no_such_field_error : Cls
  no_such_method_error : Cls

/-- `JNIEnv::find_class` (plain call, reached through `Deref`). -/
def CompatEnv.find_class (env : CompatEnv) (s : String) : M Cls :=
  rawToM (.findClass s) (env.host.findClass s)

/-- `JNIEnv::get_field` (plain call). -/
def CompatEnv.get_field (env : CompatEnv) (o : Obj) (name ty : String) : M Val :=
  rawToM (.getField o name ty) (env.host.getField o name ty)

/-- `JNIEnv::get_static_field` (plain call, class already resolved). -/
def CompatEnv.get_static_field (env : CompatEnv) (c : Cls) (name sig : String) : M Val :=
  rawToM (.getStaticField c name sig) (env.host.getStaticField c name sig)

/-- `JNIEnv::get_static_field` with a string class descriptor: `jni`'s
`Desc` impl for strings resolves the class with `find_class` first. -/
def CompatEnv.get_static_field_str (env : CompatEnv) (clsName name sig : String) : M Val := do
  let c ← env.find_class clsName
  env.get_static_field c name sig

/-- `JNIEnv::call_method` (plain call). -/
def CompatEnv.call_method (env : CompatEnv) (o : Obj) (name sig : String)
    (args : List Val) : M Val :=
  rawToM (.callMethod o name sig args) (env.host.callMethod o name sig args)

/-- `JNIEnv::call_static_method` (plain call, class already resolved). -/
def CompatEnv.call_static_method (env : CompatEnv) (c : Cls) (name sig : String)
    (args : List Val) : M Val :=
  rawToM (.callStaticMethod c name sig args) (env.host.callStaticMethod c name sig args)

/-- `JNIEnv::new_object` (plain call, class already resolved). -/
def CompatEnv.new_object (env : CompatEnv) (c : Cls) (sig : String)
    (args : List Val) : M Obj :=
  rawToM (.newObject c sig args) (env.host.newObject c sig args)

/-- `JNIEnv::new_object` with a string class descriptor (resolved via
`find_class` first, per `jni`'s `Desc`). -/
def CompatEnv.new_object_str (env : CompatEnv) (clsName sig : String)
    (args : List Val) : M Obj := do
  let c ← env.find_class clsName
  env.new_object c sig args

/-- `JNIEnv::new_string`. -/
def CompatEnv.new_string (env : CompatEnv) (s : String) : M Obj :=
  rawToM (.newString s) (env.host.newString s)

/-- `JNIEnv::exception_occurred`: read the pending-exception slot. -/
def CompatEnv.exception_occurred (_env : CompatEnv) : M Obj := fun st =>
  (.ok (st.pending.getD Obj.null), { st with log := st.log ++ [.exceptionOccurred] })

/-- `JNIEnv::exception_clear`: clear the pending-exception slot. -/
def CompatEnv.exception_clear (_env : CompatEnv) : M Unit := fun st =>
  (.ok (), { st with log := st.log ++ [.exceptionClear], pending := none })

/-- `JNIEnv::throw`: make `e` the pending exception. -/
def CompatEnv.throw (_env : CompatEnv) (e : Obj) : M Unit := fun st =>
  (.ok (), { st with log := st.log ++ [.throwCall e], pending := some e })

/-- `JNIEnv::is_instance_of`. -/
def CompatEnv.is_instance_of (env : CompatEnv) (o : Obj) (c : Cls) : M Bool := fun st =>
  (.ok (env.host.isInst o c), { st with log := st.log ++ [.isInstanceOf o c] })

/-- The `for i in ignore` loop of `CompatEnv::try_do`: test the fetched
exception against each ignore-set entry, short-circuiting on the first
match (the loop's early `return Ok(None)`). -/
def CompatEnv.checkIgnore (env : CompatEnv) (exception : Obj) : List Cls → M Bool
  | [] => pure false
  | i :: rest => do
      if (← env.is_instance_of exception i) then
        pure true
      else
        env.checkIgnore exception rest

/-- `CompatEnv::try_do` (src/android_api_util/src/lib.rs:47-71). -/
def CompatEnv.try_do {T : Type} (env : CompatEnv) (val : Except JError T)
    (ignore : List Cls) : M (Option T) :=
  match val with
  | .ok x => pure (some x)
  | .error .javaException => do
      let exception ← env.exception_occurred
      env.exception_clear
      if (← env.checkIgnore exception ignore) then
        pure none
      else do
        env.throw exception
        throwM .javaException
  | .error e => throwM e

/-- Shape shared by the six `try_*` probe operations: issue the raw call
(response `r`, logged as `c`), then hand its `Result` to `try_do` with the
operation's fixed ignore set. -/
def CompatEnv.runProbe {T : Type} (env : CompatEnv) (c : Call) (r : RawRes T)
    (ignore : List Cls) : M (Option T) := do
  let v ← attempt (rawToM c r)
  env.try_do v ignore

/-- `CompatEnv::try_find_class` (lib.rs:73-84). -/
def CompatEnv.try_find_class (env : CompatEnv) (s : String) : M (Option Cls) :=
  env.runProbe (.findClass s) (env.host.findClass s)
    [env.class_not_found_exception, env.no_class_def_found_error]

/-- `CompatEnv::try_get_field` (lib.rs:86-101). -/
def CompatEnv.try_get_field (env : CompatEnv) (o : Obj) (name ty : String) : M (Option Val) :=
  env.runProbe (.getField o name ty) (env.host.getField o name ty)
    [env.no_such_field_exception, env.no_such_field_error]

/-- `CompatEnv::try_get_static_field` (lib.rs:103-118). -/
def CompatEnv.try_get_static_field (env : CompatEnv) (c : Cls) (field sig : String) :
    M (Option Val) :=
  env.runProbe (.getStaticField c field sig) (env.host.getStaticField c field sig)
    [env.no_such_field_exception, env.no_such_field_error]

/-- `CompatEnv::try_call_method` (lib.rs:120-136). -/
def CompatEnv.try_call_method (env : CompatEnv) (o : Obj) (name sig : String)
    (args : List Val) : M (Option Val) :=
  env.runProbe (.callMethod o name sig args) (env.host.callMethod o name sig args)
    [env.no_such_method_exception, env.no_such_method_error]

/-- `CompatEnv::try_call_static_method` (lib.rs:138-154). -/
def CompatEnv.try_call_static_method (env : CompatEnv) (c : Cls) (name sig : String)
    (args : List Val) : M (Option Val) :=
  env.runProbe (.callStaticMethod c name sig args) (env.host.callStaticMethod c name sig args)
    [env.no_such_method_exception, env.no_such_method_error]

/-- `CompatEnv::try_new_object` (lib.rs:156-170). -/
def CompatEnv.try_new_object (env : CompatEnv) (c : Cls) (ctor_sig : String)
    (ctor_args : List Val) : M (Option Obj) :=
  env.runProbe (.newObject c ctor_sig ctor_args) (env.host.newObject c ctor_sig ctor_args)
    [env.no_such_method_exception, env.no_such_method_error]

/-- `ResourceManager` (src/android_api_util/src/resources.rs:8-13); the
`HashMap` cache is modelled as an association list whose `lookup` agrees
with the map's (insertion prepends, lookup takes the first binding). -/
structure ResourceManager where
  env : CompatEnv
  resources : Obj
  package : Obj
  previous_resources : List (String × Int)

/-- The host-side identifier lookup in the cache-miss arm of
`ResourceManager::get` (resources.rs:57-69): two `new_string` calls, the
`getIdentifier` call, then `.and_then(|x| x.i())`. -/
def ResourceManager.lookupHost (m : ResourceManager) (name kind : String) : M Int := do
  let nameStr ← m.env.new_string name
  let kindStr ← m.env.new_string kind
  let v ← m.env.call_method m.resources "getIdentifier"
    "(Ljava/lang/String;Ljava/lang/String;Ljava/lang/String;)I"
    [Val.obj nameStr, Val.obj kindStr, Val.obj m.package]
  exceptLift v.i

/-- `ResourceManager::get` (resources.rs:46-80).  Returns the result, the
manager (its cache possibly extended), and the host state. -/
def ResourceManager.get (m : ResourceManager) (name kind : String) (st : HState) :
    Except JError Int × ResourceManager × HState :=
  match m.previous_resources.lookup name with
  | some x => (.ok x, m, st)
  | none =>
      match m.lookupHost name kind st with
      | (.ok x, st1) =>
          (.ok x, { m with previous_resources := (name, x) :: m.previous_resources }, st1)
      | (.error e, st1) => (.error e, m, st1)

/-- `Importance` (src/android_notif/src/channel.rs:6-22). -/
inductive Importance where
  | default
  | high
  | low
  | max
  | min
  | none
  | unspecified
deriving DecidableEq, Repr

/-- `Importance::internal_name` (channel.rs:25-35). -/
def Importance.internal_name : Importance → String
  | .default => "IMPORTANCE_DEFAULT"
  | .high => "IMPORTANCE_HIGH"
  | .low => "IMPORTANCE_LOW"
  | .max => "IMPORTANCE_MAX"
  | .min => "IMPORTANCE_MIN"
  | .none => "IMPORTANCE_NONE"
  | .unspecified => "IMPORTANCE_UNSPECIFIED"

/-- `Importance::internal_value` (channel.rs:38-44). -/
def Importance.internal_value (imp : Importance) (env : CompatEnv) : M Int := do
  let cls ← env.find_class "android/app/NotificationManager"
  let value ← env.get_static_field cls imp.internal_name "I"
  exceptLift value.i

/-- `NotificationChannel` (channel.rs:49-54). -/
structure NotificationChannel where
  id : String
  name : String
  desc : Option String
  importance : Importance

/-- `notification_channel_available` (channel.rs:59-87): the feature
detector for the notification-channel capability. -/
def notification_channel_available (env : CompatEnv) : M Bool := do
  let version_class ← env.find_class "android/os/Build$VERSION"
  let version_codes ← env.try_find_class "android/os/Build$VERSION_CODES"
  match version_codes with
  | none => pure false
  | some version_codes => do
      let version_value ← env.try_get_static_field version_class "SDK_INT" "I"
      match version_value with
      | none => pure false
      | some x => do
          let version_value ← exceptLift x.i
          let o_version ← env.try_get_static_field version_codes "O" "I"
          match o_version with
          | none => pure false
          | some ov => do
              let ovi ← exceptLift ov.i
              pure (decide (version_value ≥ ovi))

/-- `create_notification_channel` (channel.rs:92-158). -/
def create_notification_channel (channel_cfg : NotificationChannel) (env : CompatEnv) :
    M Unit := do
  let avail ← notification_channel_available env
  if !avail then
    pure ()
  else do
    let name ← env.new_string channel_cfg.name
    let desc ← (match channel_cfg.desc with
      | Option.none => (pure Option.none : M (Option Obj))
      | Option.some x => do
          let d ← env.new_string x
          pure (Option.some d))
    let importance ← channel_cfg.importance.internal_value env
    let id ← env.new_string channel_cfg.id
    let channel ← env.new_object_str "android/app/NotificationChannel"
      "(Ljava/lang/String;Ljava/lang/CharSequence;I)V"
      [Val.obj id, Val.obj name, Val.int importance]
    match desc with
    | Option.some d => do
        let _ ← env.call_method channel "setDescription" "(Ljava/lang/String;)V" [Val.obj d]
        let nm ← env.get_static_field_str "android/content/Context" "NOTIFICATION_SERVICE"
          "Ljava/lang/String;"
        let notif_manager ← exceptLift nm.l
        let mgr ← env.call_method env.context "getSystemService"
          "(Ljava/lang/String;)Ljava/lang/Object;" [Val.obj notif_manager]
        let manager ← exceptLift mgr.l
        let _ ← env.call_method manager "createNotificationChannel"
          "(Landroid/app/NotificationChannel;)V" [Val.obj channel]
        pure ()
    | Option.none => do
        let nm ← env.get_static_field_str "android/content/Context" "NOTIFICATION_SERVICE"
          "Ljava/lang/String;"
        let notif_manager ← exceptLift nm.l
        let mgr ← env.call_method env.context "getSystemService"
          "(Ljava/lang/String;)Ljava/lang/Object;" [Val.obj notif_manager]
        let manager ← exceptLift mgr.l
        let _ ← env.call_method manager "createNotificationChannel"
          "(Landroid/app/NotificationChannel;)V" [Val.obj channel]
        pure ()

/-- `ActivityFlags` (src/android_notif/src/notification.rs:9-59): always
present constants are plain `Int`, version-gated ones `Option Int`. -/
structure ActivityFlags where
  brought_to_front : Int
  clear_task : Option Int
  clear_top : Int
  clear_when_task_reset : Option Int
  exclude_from_recents : Int
  forward_result : Int
  launched_from_history : Int
  launch_adjacent : Option Int
  match_external : Option Int
  multiple_task : Int
  new_document : Option Int
  new_task : Int
  no_animation : Option Int
  no_history : Int
  no_user_action : Option Int
  previous_is_top : Int
  reorder_to_front : Option Int
  require_default : Option Int
  require_non_browser : Option Int
  reset_task_if_needed : Int
  retain_in_recents : Option Int
  single_top : Option Int
  task_on_home : Option Int
deriving DecidableEq, Repr

/-- The `load` closure of `ActivityFlagLoader::load` (notification.rs:70-75):
probe a static `int` field, mapping `Absent` to `None`. -/
def ActivityFlagLoader.loadField (env : CompatEnv) (intent : Cls) (name : String) :
    M (Option Int) := do
  let r ← env.try_get_static_field intent name "I"
  match r with
  | Option.none => pure Option.none
  | Option.some v =>
      match v.i with
      | .ok i => pure (Option.some i)
      | .error e => throwM e

/-- The `load_yes` closure (notification.rs:77-82): as `loadField`, but an
absent constant becomes `Error::FieldNotFound`. -/
def ActivityFlagLoader.loadYes (env : CompatEnv) (intent : Cls) (name : String) : M Int := do
  let r ← ActivityFlagLoader.loadField env intent name
  match r with
  | Option.some i => pure i
  | Option.none => throwM (.fieldNotFound name "I")

/-- `ActivityFlagLoader::load` (notification.rs:64-111). -/
def ActivityFlagLoader.load (env : CompatEnv) : M ActivityFlags := do
  let intent ← env.find_class "android/content/Intent"
  let brought_to_front ← ActivityFlagLoader.loadYes env intent "FLAG_ACTIVITY_BROUGHT_TO_FRONT"
  let clear_task ← ActivityFlagLoader.loadField env intent "FLAG_ACTIVITY_CLEAR_TASK"
  let clear_top ← ActivityFlagLoader.loadYes env intent "FLAG_ACTIVITY_CLEAR_TOP"
  let clear_when_task_reset ← ActivityFlagLoader.loadField env intent "FLAG_ACTIVITY_CLEAR_WHEN_TASK_RESET"
  let exclude_from_recents ← ActivityFlagLoader.loadYes env intent "FLAG_ACTIVITY_EXCLUDE_FROM_RECENTS"
  let forward_result ← ActivityFlagLoader.loadYes env intent "FLAG_ACTIVITY_FORWARD_RESULT"
  let launched_from_history ← ActivityFlagLoader.loadYes env intent "FLAG_ACTIVITY_LAUNCHED_FROM_HISTORY"
  let launch_adjacent ← ActivityFlagLoader.loadField env intent "FLAG_ACTIVITY_LAUNCH_ADJACENT"
  let match_external ← ActivityFlagLoader.loadField env intent "FLAG_ACTIVITY_MATCH_EXTERNAL"
  let multiple_task ← ActivityFlagLoader.loadYes env intent "FLAG_ACTIVITY_MULTIPLE_TASK"
  let new_document ← ActivityFlagLoader.loadField env intent "FLAG_ACTIVITY_NEW_DOCUMENT"
  let new_task ← ActivityFlagLoader.loadYes env intent "FLAG_ACTIVITY_NEW_TASK"
  let no_animation ← ActivityFlagLoader.loadField env intent "FLAG_ACTIVITY_NO_ANIMATION"
  let no_history ← ActivityFlagLoader.loadYes env intent "FLAG_ACTIVITY_NO_HISTORY"
  let no_user_action ← ActivityFlagLoader.loadField env intent "FLAG_ACTIVITY_NO_USER_ACTION"
  let previous_is_top ← ActivityFlagLoader.loadYes env intent "FLAG_ACTIVITY_PREVIOUS_IS_TOP"
  let reorder_to_front ← ActivityFlagLoader.loadField env intent "FLAG_ACTIVITY_REORDER_TO_FRONT"
  let require_default ← ActivityFlagLoader.loadField env intent "FLAG_ACTIVITY_REQUIRE_DEFAULT"
  let require_non_browser ← ActivityFlagLoader.loadField env intent "FLAG_ACTIVITY_REQUIRE_NON_BROWSER"
  let reset_task_if_needed ← ActivityFlagLoader.loadYes env intent "FLAG_ACTIVITY_RESET_TASK_IF_NEEDED"
  let retain_in_recents ← ActivityFlagLoader.loadField env intent "FLAG_ACTIVITY_RETAIN_IN_RECENTS"
  let single_top ← ActivityFlagLoader.loadField env intent "FLAG_ACTIVITY_SINGLE_TOP"
  let task_on_home ← ActivityFlagLoader.loadField env intent "FLAG_ACTIVITY_TASK_ON_HOME"
  pure {
    brought_to_front := brought_to_front
    clear_task := clear_task
    clear_top := clear_top
    clear_when_task_reset := clear_when_task_reset
    exclude_from_recents := exclude_from_recents
    forward_result := forward_result
    launched_from_history := launched_from_history
    launch_adjacent := launch_adjacent
    match_external := match_external
    multiple_task := multiple_task
    new_document := new_document
    new_task := new_task
    no_animation := no_animation
    no_history := no_history
    no_user_action := no_user_action
    previous_is_top := previous_is_top
    reorder_to_front := reorder_to_front
    require_default := require_default
    require_non_browser := require_non_browser
    reset_task_if_needed := reset_task_if_needed
    retain_in_recents := retain_in_recents
    single_top := single_top
    task_on_home := task_on_home }

/-- Outcome of the first-use population of the process-wide constant bag:
either the bag, or a process abort (`unwrap` panicking on `Err`). -/
inductive InitOutcome where
  | ok (flags : ActivityFlags) (st : HState)
  | fatal (e : JError) (st : HState)
deriving DecidableEq, Repr

/-- `activity_flags` (notification.rs:117-121): `cell` is the `OnceCell`'s
current content; on first use the loader runs and its `Err` is `unwrap`ped,
i.e. the process aborts. -/
def activity_flags (env : CompatEnv) (cell : Option ActivityFlags) (st : HState) :
    InitOutcome :=
  match cell with
  | some f => .ok f st
  | none =>
      match ActivityFlagLoader.load env st with
      | (.ok v, st1) => .ok v st1
      | (.error e, st1) => .fatal e st1

/-- `NotificationBuilder` (notification.rs:171-175). -/
structure NotificationBuilder where
  internal : Obj
  env : CompatEnv

/-- The version-gated selector idiom
`probe(...).transpose().unwrap_or_else(|| fallback)?` shared by
`NotificationBuilder::new` and `NotificationBuilder::build`: run the
probe; on `Ok(Some(v))` use `v`; on `Ok(None)` (`Absent`) run the
fallback exactly once and use its result; on `Err` propagate without
running the fallback. -/
def selectPath {T : Type} (probe : M (Option T)) (fallback : M T) : M T := do
  let rich ← attempt probe
  match rich with
  | .ok (some b) => pure b
  | .ok Option.none => fallback
  | .error e => throwM e

/-- `NotificationBuilder::new` (notification.rs:181-209): richer channel-id
constructor through the probe; on `Absent` the context-only constructor as
a plain call. -/
def NotificationBuilder.new (env : CompatEnv) (channel_id : String) :
    M NotificationBuilder := do
  let cls ← env.find_class "android/app/Notification$Builder"
  let cid ← env.new_string channel_id
  let builder ← selectPath
    (env.try_new_object cls "(Landroid/content/Context;Ljava/lang/String;)V"
      [Val.obj env.context, Val.obj cid])
    (env.new_object cls "(Landroid/content/Context;)V" [Val.obj env.context])
  pure { internal := builder, env := env }

/-- `NotificationBuilder::build` (notification.rs:279-296): newer `build`
method through the probe; on `Absent` the older `getNotification` as a
plain call; the selected `JValue` is converted with `l()`. -/
def NotificationBuilder.build (b : NotificationBuilder) : M Obj := do
  let x ← selectPath
    (b.env.try_call_method b.internal "build" "()Landroid/app/Notification;" [])
    (b.env.call_method b.internal "getNotification" "()Landroid/app/Notification;" [])
  exceptLift x.l

section ConcreteHosts

/-- A fixed exception object used by the concrete hosts below. -/
def objE : Obj := ⟨7⟩

/-- A host on which every reflective lookup fails with exception `objE`,
and `objE` is an instance of every class (so every ignore set matches). -/
def hostAbsent : Host where
  isInst := fun _ _ => true
  findClass := fun _ => .exc objE
  getField := fun _ _ _ => .exc objE
  getStaticField := fun _ _ _ => .exc objE
  callMethod := fun _ _ _ _ => .exc objE
  callStaticMethod := fun _ _ _ _ => .exc objE
  newObject := fun _ _ _ => .exc objE
  newString := fun _ => .ok ⟨100⟩

/-- As `hostAbsent`, but `objE` is an instance of no class, so no ignore
set ever matches and every probe failure is a genuine `Failure`. -/
def hostFail : Host := { hostAbsent with isInst := fun _ _ => false }

def envAbsent : CompatEnv where
  host := hostAbsent
  context := ⟨1⟩
  class_not_found_exception := ⟨11⟩
  no_such_field_exception := ⟨12⟩
  no_such_method_exception := ⟨13⟩
  no_class_def_found_error := ⟨14⟩
  no_such_field_error := ⟨15⟩
  no_such_method_error := ⟨16⟩

def envFail : CompatEnv := { envAbsent with host := hostFail }

/-- Initial host state: empty log, no pending fault. -/
def st0 : HState := ⟨[], none⟩

/-- A host on which the resource-identifier lookup succeeds with id 17. -/
def hostRes : Host := { hostFail with
  newString := fun _ => .ok ⟨50⟩
  callMethod := fun _ _ _ _ => .ok (.int 17) }

/-- As `hostRes`, but the `getIdentifier` call fails. -/
def hostResFail : Host := { hostRes with callMethod := fun _ _ _ _ => .err (.other 9) }

def envRes : CompatEnv := { envAbsent with host := hostRes }

def envResFail : CompatEnv := { envAbsent with host := hostResFail }

/-- A fresh resource manager over `hostRes`, empty cache. -/
def mgrW : ResourceManager where
  env := envRes
  resources := ⟨2⟩
  package := ⟨3⟩
  previous_resources := []

/-- A fresh resource manager over `hostResFail`, empty cache. -/
def mgrF : ResourceManager where
  env := envResFail
  resources := ⟨2⟩
  package := ⟨3⟩
  previous_resources := []

/-- A host exposing `Build$VERSION` but for which every other lookup fails
with `objE` (an instance of everything, so probes classify it `Absent`). -/
def hostV1 : Host := { hostAbsent with
  findClass := fun s => if s = "android/os/Build$VERSION" then .ok ⟨21⟩ else .exc objE }

/-- A host exposing both version classes, but no static fields. -/
def hostV2 : Host := { hostAbsent with
  findClass := fun s => if s = "android/os/Build$VERSION" then .ok ⟨21⟩ else .ok ⟨22⟩ }

/-- A host exposing the version classes and `SDK_INT`, but not `O`. -/
def hostV3 : Host := { hostV2 with
  getStaticField := fun _ name _ => if name = "SDK_INT" then .ok (.int 30) else .exc objE }

def envV1 : CompatEnv := { envAbsent with host := hostV1 }

def envV2 : CompatEnv := { envAbsent with host := hostV2 }

def envV3 : CompatEnv := { envAbsent with host := hostV3 }

/-- A host for the builder scenarios: the channel-id constructor and the
newer `build` method are absent (exception `objE`, an instance of every
class); the context-only constructor and `getNotification` succeed. -/
def hostNB : Host where
  isInst := fun _ _ => true
  findClass := fun _ => .ok ⟨30⟩
  getField := fun _ _ _ => .ok (.int 0)
  getStaticField := fun _ _ _ => .ok (.int 0)
  callMethod := fun _ name _ _ => if name = "build" then .exc objE else .ok (.obj ⟨33⟩)
  callStaticMethod := fun _ _ _ _ => .ok (.int 0)
  newObject := fun _ sig _ =>
    if sig = "(Landroid/content/Context;)V" then .ok ⟨32⟩ else .exc objE
  newString := fun _ => .ok ⟨31⟩

def envNB : CompatEnv := { envAbsent with host := hostNB }

def bldrNB : NotificationBuilder := { internal := ⟨32⟩, env := envNB }

/-- A host exposing the `Intent` class and every activity-flag constant
except `FLAG_ACTIVITY_NEW_TASK`, which is absent (exception `objE`, an
instance of every class). -/
def hostNT : Host := { hostAbsent with
  findClass := fun _ => .ok ⟨40⟩
  getStaticField := fun _ name _ =>
    if name = "FLAG_ACTIVITY_NEW_TASK" then .exc objE else .ok (.int 1) }

def envNT : CompatEnv := { envAbsent with host := hostNT }

/-- A host on which even the `Intent` class lookup fails outright. -/
def hostIntentFail : Host := { hostAbsent with findClass := fun _ => .err (.other 3) }

def envIntentFail : CompatEnv := { envAbsent with host := hostIntentFail }

/-- Number of times the call `cal` occurs in a call log. -/
def countCall (cal : Call) : List Call → Nat
  | [] => 0
  | c :: rest => (if c = cal then 1 else 0) + countCall cal rest

/-- Calls the feature detector may issue: reflective lookups and the probe
machinery, but never object construction or method invocation. -/
def probeOnlyCall : Call → Prop
  | .findClass _ => True
  | .getStaticField _ _ _ => True
  | .exceptionOccurred => True
  | .exceptionClear => True
  | .throwCall _ => True
  | .isInstanceOf _ _ => True
  | _ => False

end ConcreteHosts

section Lemmas

lemma M.pure_apply {α : Type} (a : α) (st : HState) : (pure a : M α) st = (.ok a, st) := rfl

lemma M.bind_apply {α β : Type} (m : M α) (f : α → M β) (st : HState) :
    (m >>= f) st =
      match m st with
      | (.ok a, st1) => f a st1
      | (.error e, st1) => (.error e, st1) := rfl

lemma M.bind_ok {α β : Type} {m : M α} {f : α → M β} {st st2 : HState} {b : β}
    (h : (m >>= f) st = (.ok b, st2)) :
    ∃ a st1, m st = (.ok a, st1) ∧ f a st1 = (.ok b, st2) := by
  rw [M.bind_apply] at h
  rcases hm : m st with ⟨r, st1⟩
  rw [hm] at h
  cases r with
  | ok a => exact ⟨a, st1, rfl, h⟩
  | error e => simp at h

/-- The `is_instance_of` calls the ignore loop actually issues (it stops at
the first match). -/
def igLog (env : CompatEnv) (e : Obj) : List Cls → List Call
  | [] => []
  | i :: rest =>
      if env.host.isInst e i then [.isInstanceOf e i]
      else .isInstanceOf e i :: igLog env e rest

/-- Full evaluation of the ignore loop: it returns `List.any` of the
instance tests, logs `igLog`, and never touches the pending slot. -/
lemma checkIgnore_eval (env : CompatEnv) (e : Obj) (l : List Cls) (st : HState) :
    (env.checkIgnore e l) st =
      (.ok (l.any fun c => env.host.isInst e c),
        { st with log := st.log ++ igLog env e l }) := by
  induction l generalizing st with
  | nil => simp [CompatEnv.checkIgnore, igLog, M.pure_apply]
  | cons a rest ih =>
      simp only [CompatEnv.checkIgnore, M.bind_apply, CompatEnv.is_instance_of, List.any_cons,
        igLog]
      cases h : env.host.isInst e a with
      | true => simp [M.pure_apply]
      | false => simp [ih, List.append_assoc]

/-- Full evaluation of `try_do` on `Err(JavaException)` with exception `e`
pending: fetch, clear, classify; `Absent` with clear slot on a match,
re-raise of the same `e` and `Failure` otherwise. -/
lemma try_do_exc_eval {T : Type} (env : CompatEnv) (ignore : List Cls) (e : Obj)
    (st : HState) (hp : st.pending = some e) :
    (env.try_do (Except.error .javaException) ignore : M (Option T)) st =
      if ignore.any (fun c => env.host.isInst e c) then
        (.ok none, { st with
          log := st.log ++ [.exceptionOccurred, .exceptionClear] ++ igLog env e ignore,
          pending := none })
      else
        (.error .javaException, { st with
          log := st.log ++ [.exceptionOccurred, .exceptionClear] ++ igLog env e ignore
            ++ [.throwCall e],
          pending := some e }) := by
  simp only [CompatEnv.try_do, M.bind_apply, CompatEnv.exception_occurred, hp,
    Option.getD_some, CompatEnv.exception_clear, checkIgnore_eval, CompatEnv.throw,
    throwM, M.pure_apply]
  cases hany : ignore.any (fun c => env.host.isInst e c) with
  | true => simp [M.pure_apply, List.append_assoc]
  | false => simp [M.bind_apply, CompatEnv.throw, throwM, List.append_assoc]

/-- `try_do` on a pending exception matching the ignore set: `Absent`
(`Ok(None)`), pending slot clear. -/
lemma try_do_exc_absent {T : Type} (env : CompatEnv) (ignore : List Cls) (e : Obj)
    (st : HState) (hp : st.pending = some e)
    (h : (ignore.any fun c => env.host.isInst e c) = true) :
    ((env.try_do (Except.error .javaException) ignore : M (Option T)) st).1 = .ok none ∧
    ((env.try_do (Except.error .javaException) ignore : M (Option T)) st).2.pending = none := by
  rw [try_do_exc_eval env ignore e st hp, h]
  exact ⟨rfl, rfl⟩

/-- `try_do` on a pending exception matching no ignore-set entry: `Failure`
(`Err(JavaException)`), the same exception re-raised and pending again. -/
lemma try_do_exc_failure {T : Type} (env : CompatEnv) (ignore : List Cls) (e : Obj)
    (st : HState) (hp : st.pending = some e)
    (h : (ignore.any fun c => env.host.isInst e c) = false) :
    ((env.try_do (Except.error .javaException) ignore : M (Option T)) st).1 =
      .error .javaException ∧
    ((env.try_do (Except.error .javaException) ignore : M (Option T)) st).2.pending = some e := by
  rw [try_do_exc_eval env ignore e st hp, h]
  exact ⟨rfl, rfl⟩

/-- `try_do` on a non-`JavaException` error: passed through untouched. -/
lemma try_do_err {T : Type} (env : CompatEnv) (ignore : List Cls) (e : JError)
    (st : HState) (h : e ≠ .javaException) :
    (env.try_do (Except.error e) ignore : M (Option T)) st = (.error e, st) := by
  cases e with
  | javaException => exact absurd rfl h
  | fieldNotFound n s => rfl
  | wrongJValueType => rfl
  | other n => rfl

/-- Evaluating `runProbe` when the raw call succeeds. -/
lemma runProbe_ok {T : Type} (env : CompatEnv) (c : Call) (v : T) (ignore : List Cls)
    (st : HState) :
    (env.runProbe c (.ok v) ignore) st =
      (.ok (some v), { st with log := st.log ++ [c] }) := rfl

/-- Full evaluation of `runProbe` when the raw call fails with exception `e`. -/
lemma runProbe_exc_eval {T : Type} (env : CompatEnv) (c : Call) (e : Obj)
    (ignore : List Cls) (st : HState) :
    (env.runProbe c (RawRes.exc e) ignore : M (Option T)) st =
      if ignore.any (fun cl => env.host.isInst e cl) then
        (.ok none, { st with
          log := st.log ++ [c, .exceptionOccurred, .exceptionClear] ++ igLog env e ignore,
          pending := none })
      else
        (.error .javaException, { st with
          log := st.log ++ [c, .exceptionOccurred, .exceptionClear] ++ igLog env e ignore
            ++ [.throwCall e],
          pending := some e }) := by
  simp only [CompatEnv.runProbe, M.bind_apply, attempt, rawToM]
  rw [try_do_exc_eval env ignore e _ rfl]
  cases hany : ignore.any (fun cl => env.host.isInst e cl) with
  | true => simp [List.append_assoc]
  | false => simp [List.append_assoc]

/-- `runProbe` on a raw call that fails with an exception matching the
ignore set: `Absent`, pending slot clear. -/
lemma runProbe_exc_absent {T : Type} (env : CompatEnv) (c : Call) (e : Obj)
    (ignore : List Cls) (st : HState)
    (h : (ignore.any fun cl => env.host.isInst e cl) = true) :
    ((env.runProbe c (RawRes.exc e) ignore : M (Option T)) st).1 = .ok none ∧
    ((env.runProbe c (RawRes.exc e) ignore : M (Option T)) st).2.pending = none := by
  rw [runProbe_exc_eval env c e ignore st, h]
  exact ⟨rfl, rfl⟩

/-- `runProbe` on a raw call that fails with an exception matching no
ignore-set entry: `Failure`, the same exception pending again. -/
lemma runProbe_exc_failure {T : Type} (env : CompatEnv) (c : Call) (e : Obj)
    (ignore : List Cls) (st : HState)
    (h : (ignore.any fun cl => env.host.isInst e cl) = false) :
    ((env.runProbe c (RawRes.exc e) ignore : M (Option T)) st).1 = .error .javaException ∧
    ((env.runProbe c (RawRes.exc e) ignore : M (Option T)) st).2.pending = some e := by
  rw [runProbe_exc_eval env c e ignore st, h]
  exact ⟨rfl, rfl⟩

/-- `runProbe` on a raw call that fails without a pending exception. -/
lemma runProbe_err {T : Type} (env : CompatEnv) (c : Call) (e : JError)
    (ignore : List Cls) (st : HState) (h : e ≠ .javaException) :
    (env.runProbe c (RawRes.err e) ignore : M (Option T)) st =
      (.error e, { st with log := st.log ++ [c] }) := by
  simp only [CompatEnv.runProbe, M.bind_apply, attempt, rawToM]
  exact try_do_err env ignore e _ h

lemma any_two {f : Cls → Bool} {a b : Cls} (h : f a = true ∨ f b = true) :
    [a, b].any f = true := by
  rcases h with h | h <;> simp [h]

/-- `m` only appends to the call log, and every appended entry satisfies `P`. -/
def LogsOnly {T : Type} (P : Call → Prop) (m : M T) : Prop :=
  ∀ st, ∃ extra, ((m st).2).log = st.log ++ extra ∧ ∀ cal ∈ extra, P cal

lemma logsOnly_pure {T : Type} (P : Call → Prop) (a : T) : LogsOnly P (pure a) :=
  fun st => ⟨[], by simp [M.pure_apply], by simp⟩

lemma logsOnly_throwM {T : Type} (P : Call → Prop) (e : JError) :
    LogsOnly P (throwM e : M T) :=
  fun st => ⟨[], by simp [throwM], by simp⟩

lemma logsOnly_exceptLift {T : Type} (P : Call → Prop) (r : Except JError T) :
    LogsOnly P (exceptLift r) :=
  fun st => ⟨[], by simp [exceptLift], by simp⟩

lemma logsOnly_bind {α β : Type} {P : Call → Prop} {m : M α} {f : α → M β}
    (hm : LogsOnly P m) (hf : ∀ a, LogsOnly P (f a)) : LogsOnly P (m >>= f) := by
  intro st
  obtain ⟨e1, he1, hp1⟩ := hm st
  rw [M.bind_apply]
  rcases hms : m st with ⟨r, st1⟩
  rw [hms] at he1
  simp only at he1
  cases r with
  | error e => exact ⟨e1, he1, hp1⟩
  | ok a =>
      obtain ⟨e2, he2, hp2⟩ := hf a st1
      refine ⟨e1 ++ e2, ?_, ?_⟩
      · rw [he2, he1, List.append_assoc]
      · intro cal hc
        rcases List.mem_append.1 hc with h | h
        · exact hp1 cal h
        · exact hp2 cal h

lemma logsOnly_attempt {T : Type} {P : Call → Prop} {m : M T} (hm : LogsOnly P m) :
    LogsOnly P (attempt m) := by
  intro st
  obtain ⟨e1, he1, hp1⟩ := hm st
  exact ⟨e1, he1, hp1⟩

lemma logsOnly_rawToM {T : Type} {P : Call → Prop} (c : Call) (r : RawRes T) (h : P c) :
    LogsOnly P (rawToM c r) := by
  intro st
  cases r with
  | ok v => exact ⟨[c], rfl, by simpa using h⟩
  | exc e => exact ⟨[c], rfl, by simpa using h⟩
  | err e => exact ⟨[c], rfl, by simpa using h⟩

lemma mem_igLog {env : CompatEnv} {e : Obj} {l : List Cls} {cal : Call}
    (h : cal ∈ igLog env e l) : ∃ o c, cal = .isInstanceOf o c := by
  induction l with
  | nil => simp [igLog] at h
  | cons a rest ih =>
      simp only [igLog] at h
      by_cases hi : env.host.isInst e a = true
      · rw [if_pos hi] at h
        simp at h
        exact ⟨e, a, h⟩
      · rw [if_neg hi] at h
        rcases List.mem_cons.1 h with h | h
        · exact ⟨e, a, h⟩
        · exact ih h

lemma logsOnly_checkIgnore {P : Call → Prop} (env : CompatEnv) (e : Obj) (l : List Cls)
    (h : ∀ o c, P (Call.isInstanceOf o c)) : LogsOnly P (env.checkIgnore e l) := by
  intro st
  rw [checkIgnore_eval]
  refine ⟨igLog env e l, rfl, ?_⟩
  intro cal hc
  obtain ⟨o, c, rfl⟩ := mem_igLog hc
  exact h o c

lemma logsOnly_try_do {T : Type} {P : Call → Prop} (env : CompatEnv)
    (val : Except JError T) (ignore : List Cls)
    (hocc : P .exceptionOccurred) (hclr : P .exceptionClear)
    (hthr : ∀ e, P (.throwCall e)) (hinst : ∀ o c, P (.isInstanceOf o c)) :
    LogsOnly P (env.try_do val ignore) := by
  cases val with
  | ok x => exact logsOnly_pure P (some x)
  | error e =>
      cases e with
      | javaException =>
          refine logsOnly_bind (fun st => ⟨[.exceptionOccurred], rfl, by simpa using hocc⟩) ?_
          intro exception
          refine logsOnly_bind (fun st => ⟨[.exceptionClear], rfl, by simpa using hclr⟩) ?_
          intro _
          refine logsOnly_bind (logsOnly_checkIgnore env exception ignore hinst) ?_
          intro b
          cases b with
          | true => exact logsOnly_pure P none
          | false =>
              refine logsOnly_bind (fun st => ⟨[.throwCall exception], rfl, ?_⟩) ?_
              · simpa using hthr exception
              · intro _
                exact logsOnly_throwM P .javaException
      | fieldNotFound n s => exact logsOnly_throwM P _
      | wrongJValueType => exact logsOnly_throwM P _
      | other n => exact logsOnly_throwM P _

/-- `selectPath` when the probe reports `Absent` and the fallback succeeds. -/
lemma selectPath_absent_ok {T : Type} (env : CompatEnv) (cRich : Call) (e : Obj)
    (ignore : List Cls) (cSimple : Call) (v : T) (st : HState)
    (h : (ignore.any fun cl => env.host.isInst e cl) = true) :
    selectPath (env.runProbe cRich (RawRes.exc e) ignore) (rawToM cSimple (RawRes.ok v)) st =
      (.ok v, { st with
        log := st.log ++ [cRich, .exceptionOccurred, .exceptionClear] ++ igLog env e ignore
          ++ [cSimple],
        pending := none }) := by
  simp only [selectPath, M.bind_apply, attempt, runProbe_exc_eval, h, if_true, rawToM]

/-- `selectPath` when the probe reports `Absent` and the fallback fails with
a host exception. -/
lemma selectPath_absent_exc {T : Type} (env : CompatEnv) (cRich : Call) (e : Obj)
    (ignore : List Cls) (cSimple : Call) (e2 : Obj) (st : HState)
    (h : (ignore.any fun cl => env.host.isInst e cl) = true) :
    selectPath (env.runProbe cRich (RawRes.exc e) ignore)
        (rawToM cSimple (RawRes.exc e2) : M T) st =
      (.error .javaException, { st with
        log := st.log ++ [cRich, .exceptionOccurred, .exceptionClear] ++ igLog env e ignore
          ++ [cSimple],
        pending := some e2 }) := by
  simp only [selectPath, M.bind_apply, attempt, runProbe_exc_eval, h, if_true, rawToM]

/-- `selectPath` when the probe reports `Absent` and the fallback fails
without a host exception. -/
lemma selectPath_absent_err {T : Type} (env : CompatEnv) (cRich : Call) (e : Obj)
    (ignore : List Cls) (cSimple : Call) (er : JError) (st : HState)
    (h : (ignore.any fun cl => env.host.isInst e cl) = true) :
    selectPath (env.runProbe cRich (RawRes.exc e) ignore)
        (rawToM cSimple (RawRes.err er) : M T) st =
      (.error er, { st with
        log := st.log ++ [cRich, .exceptionOccurred, .exceptionClear] ++ igLog env e ignore
          ++ [cSimple],
        pending := none }) := by
  simp only [selectPath, M.bind_apply, attempt, runProbe_exc_eval, h, if_true, rawToM]

/-- `selectPath` when the probe reports `Failure` through a non-ignored
host exception: the failure propagates, the fallback is never invoked
(its call is not logged). -/
lemma selectPath_probe_failure {T : Type} (env : CompatEnv) (cRich : Call) (e : Obj)
    (ignore : List Cls) (fallback : M T) (st : HState)
    (h : (ignore.any fun cl => env.host.isInst e cl) = false) :
    selectPath (env.runProbe cRich (RawRes.exc e) ignore) fallback st =
      (.error .javaException, { st with
        log := st.log ++ [cRich, .exceptionOccurred, .exceptionClear] ++ igLog env e ignore
          ++ [.throwCall e],
        pending := some e }) := by
  simp [selectPath, M.bind_apply, attempt, runProbe_exc_eval, h, throwM, List.append_assoc]

/-- `selectPath` when the probe reports `Failure` through a non-exception
error: the failure propagates, the fallback is never invoked. -/
lemma selectPath_probe_err {T : Type} (env : CompatEnv) (cRich : Call) (er : JError)
    (ignore : List Cls) (fallback : M T) (st : HState) (h : er ≠ .javaException) :
    selectPath (env.runProbe cRich (RawRes.err er) ignore) fallback st =
      (.error er, { st with log := st.log ++ [cRich] }) := by
  simp only [selectPath, M.bind_apply, attempt, runProbe_err env cRich er ignore st h, throwM]

/-- `selectPath` when the probe succeeds: the richer value is used, the
fallback is never invoked. -/
lemma selectPath_probe_ok {T : Type} (env : CompatEnv) (cRich : Call) (v : T)
    (ignore : List Cls) (fallback : M T) (st : HState) :
    selectPath (env.runProbe cRich (RawRes.ok v) ignore) fallback st =
      (.ok v, { st with log := st.log ++ [cRich] }) := by
  simp only [selectPath, M.bind_apply, attempt, runProbe_ok, M.pure_apply]

lemma countCall_append (cal : Call) (l1 l2 : List Call) :
    countCall cal (l1 ++ l2) = countCall cal l1 + countCall cal l2 := by
  induction l1 with
  | nil => simp [countCall]
  | cons a rest ih => simp [countCall, ih, Nat.add_assoc]

lemma countCall_eq_zero {cal : Call} {l : List Call} (h : cal ∉ l) : countCall cal l = 0 := by
  induction l with
  | nil => rfl
  | cons a rest ih =>
      simp only [List.mem_cons, not_or] at h
      have hne : ¬ a = cal := fun hc => h.1 hc.symm
      simp [countCall, if_neg hne, ih h.2]

/-- The ignore loop never logs a constructor call. -/
lemma countCall_igLog_newObject (env : CompatEnv) (e : Obj) (l : List Cls) (c : Cls)
    (sig : String) (args : List Val) :
    countCall (Call.newObject c sig args) (igLog env e l) = 0 := by
  refine countCall_eq_zero ?_
  intro hmem
  obtain ⟨o, c2, heq⟩ := mem_igLog hmem
  simp at heq

/-- The ignore loop never logs a method invocation. -/
lemma countCall_igLog_callMethod (env : CompatEnv) (e : Obj) (l : List Cls) (o : Obj)
    (name sig : String) (args : List Val) :
    countCall (Call.callMethod o name sig args) (igLog env e l) = 0 := by
  refine countCall_eq_zero ?_
  intro hmem
  obtain ⟨o2, c2, heq⟩ := mem_igLog hmem
  simp at heq

lemma logsOnly_runProbe {T : Type} {P : Call → Prop} (env : CompatEnv) (c : Call)
    (r : RawRes T) (ignore : List Cls)
    (hc : P c) (hocc : P .exceptionOccurred) (hclr : P .exceptionClear)
    (hthr : ∀ e, P (.throwCall e)) (hinst : ∀ o c2, P (.isInstanceOf o c2)) :
    LogsOnly P (env.runProbe c r ignore) := by
  refine logsOnly_bind (logsOnly_attempt (logsOnly_rawToM c r hc)) ?_
  intro v
  exact logsOnly_try_do env v ignore hocc hclr hthr hinst

end Lemmas

/-- C1: for every probe operation (`try_find_class`, `try_get_field`,
`try_get_static_field`, `try_call_method`, `try_call_static_method`,
`try_new_object`), if the underlying call fails with a pending exception
whose type is an instance of that call kind's fixed ignore set (class
lookup: class-not-found / class-not-found-severe; field lookups:
field-not-found / field-not-found-severe; method, static-method and
constructor calls: method-not-found / method-not-found-severe), the
operation returns `Ok(None)` and the pending-fault slot is clear after it
returns. -/
theorem claim1_probe_ignored_exception_is_absent (env : CompatEnv) (st : HState) :
    (∀ (s : String) (e : Obj),
      env.host.findClass s = .exc e →
      (env.host.isInst e env.class_not_found_exception = true ∨
        env.host.isInst e env.no_class_def_found_error = true) →
      ((env.try_find_class s) st).1 = .ok none ∧
      ((env.try_find_class s) st).2.pending = none) ∧
    (∀ (o : Obj) (name ty : String) (e : Obj),
      env.host.getField o name ty = .exc e →
      (env.host.isInst e env.no_such_field_exception = true ∨
        env.host.isInst e env.no_such_field_error = true) →
      ((env.try_get_field o name ty) st).1 = .ok none ∧
      ((env.try_get_field o name ty) st).2.pending = none) ∧
    (∀ (c : Cls) (field sig : String) (e : Obj),
      env.host.getStaticField c field sig = .exc e →
      (env.host.isInst e env.no_such_field_exception = true ∨
        env.host.isInst e env.no_such_field_error = true) →
      ((env.try_get_static_field c field sig) st).1 = .ok none ∧
      ((env.try_get_static_field c field sig) st).2.pending = none) ∧
    (∀ (o : Obj) (name sig : String) (args : List Val) (e : Obj),
      env.host.callMethod o name sig args = .exc e →
      (env.host.isInst e env.no_such_method_exception = true ∨
        env.host.isInst e env.no_such_method_error = true) →
      ((env.try_call_method o name sig args) st).1 = .ok none ∧
      ((env.try_call_method o name sig args) st).2.pending = none) ∧
    (∀ (c : Cls) (name sig : String) (args : List Val) (e : Obj),
      env.host.callStaticMethod c name sig args = .exc e →
      (env.host.isInst e env.no_such_method_exception = true ∨
        env.host.isInst e env.no_such_method_error = true) →
      ((env.try_call_static_method c name sig args) st).1 = .ok none ∧
      ((env.try_call_static_method c name sig args) st).2.pending = none) ∧
    (∀ (c : Cls) (sig : String) (args : List Val) (e : Obj),
      env.host.newObject c sig args = .exc e →
      (env.host.isInst e env.no_such_method_exception = true ∨
        env.host.isInst e env.no_such_method_error = true) →
      ((env.try_new_object c sig args) st).1 = .ok none ∧
      ((env.try_new_object c sig args) st).2.pending = none) := by
  refine ⟨?_, ?_, ?_, ?_, ?_, ?_⟩
  · intro s e h hig
    simp only [CompatEnv.try_find_class, h]
    exact runProbe_exc_absent env _ e _ st (any_two hig)
  · intro o name ty e h hig
    simp only [CompatEnv.try_get_field, h]
    exact runProbe_exc_absent env _ e _ st (any_two hig)
  · intro c field sig e h hig
    simp only [CompatEnv.try_get_static_field, h]
    exact runProbe_exc_absent env _ e _ st (any_two hig)
  · intro o name sig args e h hig
    simp only [CompatEnv.try_call_method, h]
    exact runProbe_exc_absent env _ e _ st (any_two hig)
  · intro c name sig args e h hig
    simp only [CompatEnv.try_call_static_method, h]
    exact runProbe_exc_absent env _ e _ st (any_two hig)
  · intro c sig args e h hig
    simp only [CompatEnv.try_new_object, h]
    exact runProbe_exc_absent env _ e _ st (any_two hig)

/-- Witness for C1 on the concrete host `hostAbsent`. -/
theorem claim1_witness :
    ((envAbsent.try_find_class "android/os/Build$VERSION_CODES") st0).1 = .ok none ∧
    ((envAbsent.try_find_class "android/os/Build$VERSION_CODES") st0).2.pending = none ∧
    ((envAbsent.try_get_field ⟨1⟩ "f" "I") st0).1 = .ok none ∧
    ((envAbsent.try_get_static_field ⟨2⟩ "SDK_INT" "I") st0).1 = .ok none ∧
    ((envAbsent.try_call_method ⟨1⟩ "m" "()V" []) st0).1 = .ok none ∧
    ((envAbsent.try_call_static_method ⟨2⟩ "m" "()V" []) st0).1 = .ok none ∧
    ((envAbsent.try_new_object ⟨2⟩ "()V" []) st0).1 = .ok none := by
  obtain ⟨h1, h2, h3, h4, h5, h6⟩ := claim1_probe_ignored_exception_is_absent envAbsent st0
  exact ⟨(h1 _ objE rfl (Or.inl rfl)).1, (h1 _ objE rfl (Or.inl rfl)).2,
    (h2 _ _ _ objE rfl (Or.inl rfl)).1, (h3 _ _ _ objE rfl (Or.inl rfl)).1,
    (h4 _ _ _ _ objE rfl (Or.inl rfl)).1, (h5 _ _ _ _ objE rfl (Or.inl rfl)).1,
    (h6 _ _ _ objE rfl (Or.inl rfl)).1⟩

/-- Counterexample to C2 as stated: on a probe whose underlying call fails
with an exception matching no ignore-set entry, the probe returns `Failure`
and the pending-fault state is NOT clear after it returns (the original
exception was re-raised into the host context). -/
theorem claim2_counterexample :
    ((envFail.try_find_class "X") st0).1 = .error .javaException ∧
    ((envFail.try_find_class "X") st0).2.pending ≠ none := by
  refine ⟨rfl, ?_⟩
  decide

/-- C2 (amended): after a probe call returns, the pending-fault state is
clear when the outcome is `Success` or `Absent`, and also for a `Failure`
not caused by a host exception; when the outcome is `Failure` caused by a
non-ignored host exception, that same exception has been re-raised and is
pending again.  Stated over `runProbe`, the shape of all six probe
operations, for a call issued with a clear pending slot. -/
theorem claim2_pending_state_after_probe {T : Type} (env : CompatEnv) (c : Call)
    (ignore : List Cls) (st : HState) (hp : st.pending = none) :
    (∀ v : T, ((env.runProbe c (RawRes.ok v) ignore) st).1 = .ok (some v) ∧
      ((env.runProbe c (RawRes.ok v) ignore) st).2.pending = none) ∧
    (∀ e : Obj, (ignore.any fun cl => env.host.isInst e cl) = true →
      ((env.runProbe c (RawRes.exc e : RawRes T) ignore) st).1 = .ok none ∧
      ((env.runProbe c (RawRes.exc e : RawRes T) ignore) st).2.pending = none) ∧
    (∀ e : Obj, (ignore.any fun cl => env.host.isInst e cl) = false →
      ((env.runProbe c (RawRes.exc e : RawRes T) ignore) st).1 = .error .javaException ∧
      ((env.runProbe c (RawRes.exc e : RawRes T) ignore) st).2.pending = some e) ∧
    (∀ er : JError, er ≠ .javaException →
      ((env.runProbe c (RawRes.err er : RawRes T) ignore) st).1 = .error er ∧
      ((env.runProbe c (RawRes.err er : RawRes T) ignore) st).2.pending = none) := by
  refine ⟨?_, ?_, ?_, ?_⟩
  · intro v
    rw [runProbe_ok env c v ignore st]
    exact ⟨rfl, hp⟩
  · intro e h
    exact runProbe_exc_absent env c e ignore st h
  · intro e h
    exact runProbe_exc_failure env c e ignore st h
  · intro er h
    rw [runProbe_err env c er ignore st h]
    exact ⟨rfl, hp⟩

/-- Witness for the amended C2 on concrete hosts. -/
theorem claim2_witness :
    ((envAbsent.runProbe (Call.findClass "X") (RawRes.ok (Cls.mk 3)) [Cls.mk 11]) st0).2.pending
      = none ∧
    ((envAbsent.runProbe (Call.findClass "X") (RawRes.exc objE : RawRes Cls)
        [Cls.mk 11]) st0).1 = .ok none ∧
    ((envFail.runProbe (Call.findClass "X") (RawRes.exc objE : RawRes Cls)
        [Cls.mk 11]) st0).2.pending = some objE ∧
    ((envAbsent.runProbe (Call.findClass "X") (RawRes.err (.other 2) : RawRes Cls)
        [Cls.mk 11]) st0).1 = .error (.other 2) := by
  refine ⟨?_, ?_, ?_, ?_⟩
  · exact ((claim2_pending_state_after_probe envAbsent _ _ st0 rfl).1 _).2
  · exact ((claim2_pending_state_after_probe envAbsent _ _ st0 rfl).2.1 objE (by decide)).1
  · exact ((claim2_pending_state_after_probe envFail _ _ st0 rfl).2.2.1 objE (by decide)).2
  · exact ((claim2_pending_state_after_probe envAbsent _ _ st0 rfl).2.2.2 (.other 2)
      (by decide)).1

/-- C3: for every probe call whose underlying call fails with a pending
exception whose type matches no entry of the ignore set, the probe returns
`Failure` (`Err(JavaException)`) and re-raises into the host context the
very same exception object: afterwards the pending slot holds exactly the
object that was originally pending, not a replacement. -/
theorem claim3_failure_reraises_same_exception {T : Type} (env : CompatEnv) (c : Call)
    (ignore : List Cls) (e : Obj) (st : HState)
    (h : ∀ cl ∈ ignore, env.host.isInst e cl = false) :
    ((env.runProbe c (RawRes.exc e) ignore : M (Option T)) st).1 = .error .javaException ∧
    ((env.runProbe c (RawRes.exc e) ignore : M (Option T)) st).2.pending = some e := by
  apply runProbe_exc_failure
  rw [List.any_eq_false]
  intro cl hcl
  simp [h cl hcl]

/-- Witness for C3 on the concrete host `hostFail`. -/
theorem claim3_witness :
    ((envFail.runProbe (Call.findClass "X") (RawRes.exc objE)
        [Cls.mk 11, Cls.mk 14] : M (Option Cls)) st0).1 = .error .javaException ∧
    ((envFail.runProbe (Call.findClass "X") (RawRes.exc objE)
        [Cls.mk 11, Cls.mk 14] : M (Option Cls)) st0).2.pending = some objE :=
  claim3_failure_reraises_same_exception envFail _ _ objE st0 (fun _ _ => rfl)

/-- A computation that issues raw call `c` first and then continues only
appends to the log, starting with `c`. -/
lemma log_head_bind {T β : Type} (c : Call) (r : RawRes T) (f : T → M β)
    (hf : ∀ a, LogsOnly (fun _ => True) (f a)) (st : HState) :
    ∃ rest, (((rawToM c r >>= f) st).2).log = st.log ++ c :: rest := by
  rw [M.bind_apply]
  cases r with
  | ok v =>
      simp only [rawToM]
      obtain ⟨e2, he2, _⟩ := hf v { st with log := st.log ++ [c] }
      refine ⟨e2, ?_⟩
      simpa [List.append_assoc] using he2
  | exc e => exact ⟨[], rfl⟩
  | err e => exact ⟨[], rfl⟩

/-- The cache-miss host lookup always issues its calls, beginning with the
`new_string` for `name`. -/
lemma lookupHost_starts_with_new_string (m : ResourceManager) (name kind : String)
    (st : HState) :
    ∃ rest, ((m.lookupHost name kind st).2).log = st.log ++ Call.newString name :: rest := by
  refine log_head_bind (Call.newString name) (m.env.host.newString name) _ ?_ st
  intro a
  refine logsOnly_bind (logsOnly_rawToM _ _ trivial) ?_
  intro kindStr
  refine logsOnly_bind (logsOnly_rawToM _ _ trivial) ?_
  intro v
  exact logsOnly_exceptLift _ _

/-- C6: after a first successful `get(name, kind1)`, a subsequent
`get(name, kind2)` returns the integer cached by the first call, with no
host-side call at all (manager and host state unchanged), even when
`kind2` differs: the cache is keyed by `name` alone. -/
theorem claim6_cache_keyed_by_name_alone (m : ResourceManager) (name kind1 kind2 : String)
    (st : HState) (v : Int) (m2 : ResourceManager) (st2 : HState)
    (h : m.get name kind1 st = (.ok v, m2, st2)) :
    m2.get name kind2 st2 = (.ok v, m2, st2) := by
  unfold ResourceManager.get at h
  cases hl : m.previous_resources.lookup name with
  | some x =>
      rw [hl] at h
      simp only [Prod.mk.injEq, Except.ok.injEq] at h
      obtain ⟨hv, hm, hst⟩ := h
      subst hv
      subst hst
      unfold ResourceManager.get
      rw [← hm, hl]
  | none =>
      rw [hl] at h
      rcases hp : m.lookupHost name kind1 st with ⟨r, st1⟩
      rw [hp] at h
      cases r with
      | error e => simp at h
      | ok x =>
          simp only [Prod.mk.injEq, Except.ok.injEq] at h
          obtain ⟨hv, hm, hst⟩ := h
          subst hv
          subst hst
          unfold ResourceManager.get
          rw [← hm]
          simp [List.lookup]

/-- C7: when `get(name, kind)` fails, the error propagates, the cache is
left unchanged (the manager is returned as it was, and nothing was cached
under `name`), so a subsequent `get` with the same `name` performs the
host lookup again (its call log grows, starting with the `new_string`
for `name`). -/
theorem claim7_lookup_failure_not_cached (m : ResourceManager) (name kind : String)
    (st : HState) (e : JError) (m2 : ResourceManager) (st2 : HState)
    (h : m.get name kind st = (.error e, m2, st2)) :
    m2 = m ∧ m.previous_resources.lookup name = none ∧
    (∀ (kind2 : String) (st3 : HState), ∃ rest,
      ((m.get name kind2 st3).2.2).log = st3.log ++ Call.newString name :: rest) := by
  unfold ResourceManager.get at h
  cases hl : m.previous_resources.lookup name with
  | some x =>
      rw [hl] at h
      simp at h
  | none =>
      rw [hl] at h
      rcases hp : m.lookupHost name kind st with ⟨r, st1⟩
      rw [hp] at h
      cases r with
      | ok x => simp at h
      | error e2 =>
          simp only [Prod.mk.injEq, Except.error.injEq] at h
          obtain ⟨he, hm, hst⟩ := h
          refine ⟨hm.symm, rfl, ?_⟩
          intro kind2 st3
          unfold ResourceManager.get
          rw [hl]
          rcases hq : m.lookupHost name kind2 st3 with ⟨r2, st4⟩
          have hs := lookupHost_starts_with_new_string m name kind2 st3
          rw [hq] at hs
          cases r2 with
          | ok x => simpa using hs
          | error e3 => simpa using hs

/-- Witness for C6: `get("icon_a","drawable")` then `get("icon_a","mipmap")`
on a concrete host returns the value cached by the first call. -/
theorem claim6_witness :
    ((mgrW.get "icon_a" "drawable" st0).2.1).get "icon_a" "mipmap"
        ((mgrW.get "icon_a" "drawable" st0).2.2) =
      (.ok 17, (mgrW.get "icon_a" "drawable" st0).2.1,
        (mgrW.get "icon_a" "drawable" st0).2.2) :=
  claim6_cache_keyed_by_name_alone mgrW "icon_a" "drawable" "mipmap" st0 17 _ _ rfl

/-- Witness for C7 on a concrete host whose `getIdentifier` fails. -/
theorem claim7_witness :
    (mgrF.get "icon_a" "drawable" st0).2.1 = mgrF ∧
    mgrF.previous_resources.lookup "icon_a" = none ∧
    (∃ rest, ((mgrF.get "icon_a" "mipmap" st0).2.2).log =
      st0.log ++ Call.newString "icon_a" :: rest) := by
  obtain ⟨h1, h2, h3⟩ := claim7_lookup_failure_not_cached mgrF "icon_a" "drawable" st0
    (.other 9) _ _ rfl
  exact ⟨h1, h2, h3 "mipmap" st0⟩

/-- Counterexample to C4 as stated: on a host where the version-info class
`Build$VERSION` is absent (its lookup fails with an exception that IS an
instance of class-not-found), `notification_channel_available` does not
return `false` — it propagates the error, because the `Build$VERSION`
lookup is a plain `find_class`, not a probe. -/
theorem claim4_counterexample :
    envAbsent.host.findClass "android/os/Build$VERSION" = .exc objE ∧
    envAbsent.host.isInst objE envAbsent.class_not_found_exception = true ∧
    ((notification_channel_available envAbsent) st0).1 = .error .javaException :=
  ⟨rfl, rfl, rfl⟩

/-- C4 (amended): the version-info class is looked up with a plain call, so
its absence propagates as an error instead of yielding `false`; every later
step of the detector (version-codes class, `SDK_INT`, the `O` threshold)
goes through the Capability Probe, and absence there yields `false`
without raising. -/
theorem claim4_detector_degrades_to_false (env : CompatEnv) (st : HState) :
    (∀ e : Obj, env.host.findClass "android/os/Build$VERSION" = .exc e →
      ((notification_channel_available env) st).1 = .error .javaException) ∧
    (∀ (vc : Cls) (e : Obj),
      env.host.findClass "android/os/Build$VERSION" = .ok vc →
      env.host.findClass "android/os/Build$VERSION_CODES" = .exc e →
      (env.host.isInst e env.class_not_found_exception = true ∨
        env.host.isInst e env.no_class_def_found_error = true) →
      ((notification_channel_available env) st).1 = .ok false) ∧
    (∀ (vc vcc : Cls) (e : Obj),
      env.host.findClass "android/os/Build$VERSION" = .ok vc →
      env.host.findClass "android/os/Build$VERSION_CODES" = .ok vcc →
      env.host.getStaticField vc "SDK_INT" "I" = .exc e →
      (env.host.isInst e env.no_such_field_exception = true ∨
        env.host.isInst e env.no_such_field_error = true) →
      ((notification_channel_available env) st).1 = .ok false) ∧
    (∀ (vc vcc : Cls) (n : Int) (e : Obj),
      env.host.findClass "android/os/Build$VERSION" = .ok vc →
      env.host.findClass "android/os/Build$VERSION_CODES" = .ok vcc →
      env.host.getStaticField vc "SDK_INT" "I" = .ok (.int n) →
      env.host.getStaticField vcc "O" "I" = .exc e →
      (env.host.isInst e env.no_such_field_exception = true ∨
        env.host.isInst e env.no_such_field_error = true) →
      ((notification_channel_available env) st).1 = .ok false) := by
  refine ⟨?_, ?_, ?_, ?_⟩
  · intro e h
    simp [notification_channel_available, M.bind_apply, CompatEnv.find_class, h, rawToM]
  · intro vc e h1 h2 hig
    simp [notification_channel_available, M.bind_apply, CompatEnv.find_class, h1, rawToM,
      CompatEnv.try_find_class, h2, runProbe_exc_eval, any_two hig, M.pure_apply]
  · intro vc vcc e h1 h2 h3 hig
    simp [notification_channel_available, M.bind_apply, CompatEnv.find_class, h1, rawToM,
      CompatEnv.try_find_class, h2, runProbe_ok, CompatEnv.try_get_static_field, h3,
      runProbe_exc_eval, any_two hig, M.pure_apply]
  · intro vc vcc n e h1 h2 h3 h4 hig
    simp [notification_channel_available, M.bind_apply, CompatEnv.find_class, h1, rawToM,
      CompatEnv.try_find_class, h2, runProbe_ok, CompatEnv.try_get_static_field, h3, h4,
      runProbe_exc_eval, any_two hig, M.pure_apply, Val.i, exceptLift]

/-- Witness for the amended C4 on concrete hosts: absence at each stage. -/
theorem claim4_witness :
    ((notification_channel_available envFail) st0).1 = .error .javaException ∧
    ((notification_channel_available envV1) st0).1 = .ok false ∧
    ((notification_channel_available envV2) st0).1 = .ok false ∧
    ((notification_channel_available envV3) st0).1 = .ok false := by
  refine ⟨?_, ?_, ?_, ?_⟩
  · exact (claim4_detector_degrades_to_false envFail st0).1 objE rfl
  · exact (claim4_detector_degrades_to_false envV1 st0).2.1 ⟨21⟩ objE (by decide) (by decide)
      (Or.inl rfl)
  · exact (claim4_detector_degrades_to_false envV2 st0).2.2.1 ⟨21⟩ ⟨22⟩ objE (by decide)
      (by decide) (by decide) (Or.inl rfl)
  · exact (claim4_detector_degrades_to_false envV3 st0).2.2.2 ⟨21⟩ ⟨22⟩ 30 objE (by decide)
      (by decide) (by decide) (by decide) (Or.inl rfl)

/-- Every call the feature detector issues is a reflective lookup or probe
machinery, never construction or method invocation. -/
lemma logsOnly_notification_channel_available (env : CompatEnv) :
    LogsOnly probeOnlyCall (notification_channel_available env) := by
  refine logsOnly_bind (logsOnly_rawToM _ _ trivial) ?_
  intro version_class
  refine logsOnly_bind
    (logsOnly_runProbe env _ _ _ trivial trivial trivial (fun _ => trivial)
      (fun _ _ => trivial)) ?_
  intro version_codes
  cases version_codes with
  | none => exact logsOnly_pure _ _
  | some vcc =>
      refine logsOnly_bind
        (logsOnly_runProbe env _ _ _ trivial trivial trivial (fun _ => trivial)
          (fun _ _ => trivial)) ?_
      intro version_value
      cases version_value with
      | none => exact logsOnly_pure _ _
      | some x =>
          refine logsOnly_bind (logsOnly_exceptLift _ _) ?_
          intro n
          refine logsOnly_bind
            (logsOnly_runProbe env _ _ _ trivial trivial trivial (fun _ => trivial)
              (fun _ _ => trivial)) ?_
          intro o_version
          cases o_version with
          | none => exact logsOnly_pure _ _
          | some ov =>
              refine logsOnly_bind (logsOnly_exceptLift _ _) ?_
              intro m
              exact logsOnly_pure _ _

/-- C9: when the feature detector reports the channel feature unavailable,
`create_notification_channel` returns `Ok(())` with the host state exactly
as the detector left it, and no call issued during the whole operation is
an object construction or a `createNotificationChannel` registration. -/
theorem claim9_channel_registration_noop (cfg : NotificationChannel) (env : CompatEnv)
    (st st1 : HState)
    (h : (notification_channel_available env) st = (.ok false, st1)) :
    create_notification_channel cfg env st = (.ok (), st1) ∧
    ∃ extra, st1.log = st.log ++ extra ∧ ∀ cal ∈ extra,
      (∀ c sig args, cal ≠ Call.newObject c sig args) ∧
      (∀ o sig args, cal ≠ Call.callMethod o "createNotificationChannel" sig args) := by
  constructor
  · unfold create_notification_channel
    rw [M.bind_apply, h]
    simp [M.pure_apply]
  · obtain ⟨extra, he, hp⟩ := logsOnly_notification_channel_available env st
    rw [h] at he
    refine ⟨extra, he, ?_⟩
    intro cal hc
    have hpc := hp cal hc
    cases cal <;> simp [probeOnlyCall] at hpc ⊢

/-- Witness for C9: a channel descriptor on a host whose detector reports
the feature unavailable. -/
theorem claim9_witness :
    create_notification_channel
        { id := "alerts", name := "Alerts", desc := none, importance := .default }
        envV1 st0 =
      (.ok (), ((notification_channel_available envV1) st0).2) ∧
    ∃ extra, (((notification_channel_available envV1) st0).2).log = st0.log ++ extra ∧
      ∀ cal ∈ extra,
        (∀ c sig args, cal ≠ Call.newObject c sig args) ∧
        (∀ o sig args, cal ≠ Call.callMethod o "createNotificationChannel" sig args) :=
  claim9_channel_registration_noop
    { id := "alerts", name := "Alerts", desc := none, importance := .default }
    envV1 st0 ((notification_channel_available envV1) st0).2 rfl

/-- `NotificationBuilder::new` when the channel-id constructor probe
reports `Absent`: the context-only constructor runs exactly once and its
outcome is the operation's outcome. -/
lemma sel_new_absent (env : CompatEnv) (cid : String) (st : HState) (cls : Cls)
    (cidObj : Obj) (e : Obj)
    (hc : env.host.findClass "android/app/Notification$Builder" = .ok cls)
    (hs : env.host.newString cid = .ok cidObj)
    (hre : env.host.newObject cls "(Landroid/content/Context;Ljava/lang/String;)V"
      [Val.obj env.context, Val.obj cidObj] = .exc e)
    (hig : env.host.isInst e env.no_such_method_exception = true ∨
      env.host.isInst e env.no_such_method_error = true) :
    ((NotificationBuilder.new env cid st).1 =
      (match env.host.newObject cls "(Landroid/content/Context;)V" [Val.obj env.context] with
        | .ok b => .ok { internal := b, env := env }
        | .exc _ => .error .javaException
        | .err er => .error er)) ∧
    ∃ extra, ((NotificationBuilder.new env cid st).2).log = st.log ++ extra ∧
      countCall (Call.newObject cls "(Landroid/content/Context;Ljava/lang/String;)V"
        [Val.obj env.context, Val.obj cidObj]) extra = 1 ∧
      countCall (Call.newObject cls "(Landroid/content/Context;)V" [Val.obj env.context])
        extra = 1 := by
  have hany := any_two hig
  rcases hsim : env.host.newObject cls "(Landroid/content/Context;)V" [Val.obj env.context]
    with b | e2 | er
  all_goals
    refine ⟨?_, ⟨[Call.findClass "android/app/Notification$Builder", Call.newString cid,
        Call.newObject cls "(Landroid/content/Context;Ljava/lang/String;)V"
          [Val.obj env.context, Val.obj cidObj],
        Call.exceptionOccurred, Call.exceptionClear] ++
        igLog env e [env.no_such_method_exception, env.no_such_method_error] ++
        [Call.newObject cls "(Landroid/content/Context;)V" [Val.obj env.context]], ?_, ?_, ?_⟩⟩
  · simp only [NotificationBuilder.new, M.bind_apply, CompatEnv.find_class, hc, rawToM,
      CompatEnv.new_string, hs, CompatEnv.try_new_object, CompatEnv.new_object, hre, hsim,
      selectPath_absent_ok, hany, M.pure_apply]
  · simp only [NotificationBuilder.new, M.bind_apply, CompatEnv.find_class, hc, rawToM,
      CompatEnv.new_string, hs, CompatEnv.try_new_object, CompatEnv.new_object, hre, hsim,
      selectPath_absent_ok, hany, M.pure_apply]
    simp [List.append_assoc]
  · simp [countCall_append, countCall, countCall_igLog_newObject]
  · simp [countCall_append, countCall, countCall_igLog_newObject]
  · simp only [NotificationBuilder.new, M.bind_apply, CompatEnv.find_class, hc, rawToM,
      CompatEnv.new_string, hs, CompatEnv.try_new_object, CompatEnv.new_object, hre, hsim,
      selectPath_absent_exc, hany, M.pure_apply]
  · simp only [NotificationBuilder.new, M.bind_apply, CompatEnv.find_class, hc, rawToM,
      CompatEnv.new_string, hs, CompatEnv.try_new_object, CompatEnv.new_object, hre, hsim,
      selectPath_absent_exc, hany, M.pure_apply]
    simp [List.append_assoc]
  · simp [countCall_append, countCall, countCall_igLog_newObject]
  · simp [countCall_append, countCall, countCall_igLog_newObject]
  · simp only [NotificationBuilder.new, M.bind_apply, CompatEnv.find_class, hc, rawToM,
      CompatEnv.new_string, hs, CompatEnv.try_new_object, CompatEnv.new_object, hre, hsim,
      selectPath_absent_err, hany, M.pure_apply]
  · simp only [NotificationBuilder.new, M.bind_apply, CompatEnv.find_class, hc, rawToM,
      CompatEnv.new_string, hs, CompatEnv.try_new_object, CompatEnv.new_object, hre, hsim,
      selectPath_absent_err, hany, M.pure_apply]
    simp [List.append_assoc]
  · simp [countCall_append, countCall, countCall_igLog_newObject]
  · simp [countCall_append, countCall, countCall_igLog_newObject]

/-- `NotificationBuilder::new` when the probe fails with a non-ignored
host exception: the failure propagates with the exception pending, and
the fallback constructor is never invoked. -/
lemma sel_new_exc_failure (env : CompatEnv) (cid : String) (st : HState) (cls : Cls)
    (cidObj : Obj) (e : Obj)
    (hc : env.host.findClass "android/app/Notification$Builder" = .ok cls)
    (hs : env.host.newString cid = .ok cidObj)
    (hre : env.host.newObject cls "(Landroid/content/Context;Ljava/lang/String;)V"
      [Val.obj env.context, Val.obj cidObj] = .exc e)
    (h1 : env.host.isInst e env.no_such_method_exception = false)
    (h2 : env.host.isInst e env.no_such_method_error = false) :
    (NotificationBuilder.new env cid st).1 = .error .javaException ∧
    ∃ extra, ((NotificationBuilder.new env cid st).2).log = st.log ++ extra ∧
      countCall (Call.newObject cls "(Landroid/content/Context;Ljava/lang/String;)V"
        [Val.obj env.context, Val.obj cidObj]) extra = 1 ∧
      countCall (Call.newObject cls "(Landroid/content/Context;)V" [Val.obj env.context])
        extra = 0 := by
  have hany : ([env.no_such_method_exception, env.no_such_method_error].any
      fun cl => env.host.isInst e cl) = false := by simp [h1, h2]
  refine ⟨?_, ⟨[Call.findClass "android/app/Notification$Builder", Call.newString cid,
      Call.newObject cls "(Landroid/content/Context;Ljava/lang/String;)V"
        [Val.obj env.context, Val.obj cidObj],
      Call.exceptionOccurred, Call.exceptionClear] ++
      igLog env e [env.no_such_method_exception, env.no_such_method_error] ++
      [Call.throwCall e], ?_, ?_, ?_⟩⟩
  · simp only [NotificationBuilder.new, M.bind_apply, CompatEnv.find_class, hc, rawToM,
      CompatEnv.new_string, hs, CompatEnv.try_new_object, CompatEnv.new_object, hre,
      selectPath_probe_failure, hany, M.pure_apply]
  · simp only [NotificationBuilder.new, M.bind_apply, CompatEnv.find_class, hc, rawToM,
      CompatEnv.new_string, hs, CompatEnv.try_new_object, CompatEnv.new_object, hre,
      selectPath_probe_failure, hany, M.pure_apply]
    simp [List.append_assoc]
  · simp [countCall_append, countCall, countCall_igLog_newObject]
  · simp [countCall_append, countCall, countCall_igLog_newObject]

/-- `NotificationBuilder::new` when the probe fails without a host
exception: the failure propagates and the fallback is never invoked. -/
lemma sel_new_err_failure (env : CompatEnv) (cid : String) (st : HState) (cls : Cls)
    (cidObj : Obj) (er : JError) (hne : er ≠ .javaException)
    (hc : env.host.findClass "android/app/Notification$Builder" = .ok cls)
    (hs : env.host.newString cid = .ok cidObj)
    (hre : env.host.newObject cls "(Landroid/content/Context;Ljava/lang/String;)V"
      [Val.obj env.context, Val.obj cidObj] = .err er) :
    (NotificationBuilder.new env cid st).1 = .error er ∧
    ∃ extra, ((NotificationBuilder.new env cid st).2).log = st.log ++ extra ∧
      countCall (Call.newObject cls "(Landroid/content/Context;Ljava/lang/String;)V"
        [Val.obj env.context, Val.obj cidObj]) extra = 1 ∧
      countCall (Call.newObject cls "(Landroid/content/Context;)V" [Val.obj env.context])
        extra = 0 := by
  refine ⟨?_, ⟨[Call.findClass "android/app/Notification$Builder", Call.newString cid,
      Call.newObject cls "(Landroid/content/Context;Ljava/lang/String;)V"
        [Val.obj env.context, Val.obj cidObj]], ?_, ?_, ?_⟩⟩
  · simp only [NotificationBuilder.new, M.bind_apply, CompatEnv.find_class, hc, rawToM,
      CompatEnv.new_string, hs, CompatEnv.try_new_object, CompatEnv.new_object, hre,
      selectPath_probe_err env _ er _ _ _ hne, M.pure_apply]
  · simp only [NotificationBuilder.new, M.bind_apply, CompatEnv.find_class, hc, rawToM,
      CompatEnv.new_string, hs, CompatEnv.try_new_object, CompatEnv.new_object, hre,
      selectPath_probe_err env _ er _ _ _ hne, M.pure_apply]
    simp [List.append_assoc]
  · simp [countCall_append, countCall]
  · simp [countCall_append, countCall]

/-- `NotificationBuilder::new` when the probe succeeds: the richer
constructor is used once and the fallback is never invoked. -/
lemma sel_new_ok (env : CompatEnv) (cid : String) (st : HState) (cls : Cls)
    (cidObj : Obj) (b : Obj)
    (hc : env.host.findClass "android/app/Notification$Builder" = .ok cls)
    (hs : env.host.newString cid = .ok cidObj)
    (hre : env.host.newObject cls "(Landroid/content/Context;Ljava/lang/String;)V"
      [Val.obj env.context, Val.obj cidObj] = .ok b) :
    (NotificationBuilder.new env cid st).1 = .ok { internal := b, env := env } ∧
    ∃ extra, ((NotificationBuilder.new env cid st).2).log = st.log ++ extra ∧
      countCall (Call.newObject cls "(Landroid/content/Context;Ljava/lang/String;)V"
        [Val.obj env.context, Val.obj cidObj]) extra = 1 ∧
      countCall (Call.newObject cls "(Landroid/content/Context;)V" [Val.obj env.context])
        extra = 0 := by
  refine ⟨?_, ⟨[Call.findClass "android/app/Notification$Builder", Call.newString cid,
      Call.newObject cls "(Landroid/content/Context;Ljava/lang/String;)V"
        [Val.obj env.context, Val.obj cidObj]], ?_, ?_, ?_⟩⟩
  · simp only [NotificationBuilder.new, M.bind_apply, CompatEnv.find_class, hc, rawToM,
      CompatEnv.new_string, hs, CompatEnv.try_new_object, CompatEnv.new_object, hre,
      selectPath_probe_ok, M.pure_apply]
  · simp only [NotificationBuilder.new, M.bind_apply, CompatEnv.find_class, hc, rawToM,
      CompatEnv.new_string, hs, CompatEnv.try_new_object, CompatEnv.new_object, hre,
      selectPath_probe_ok, M.pure_apply]
    simp [List.append_assoc]
  · simp [countCall_append, countCall]
  · simp [countCall_append, countCall]

/-- `NotificationBuilder::build` when the `build` probe reports `Absent`:
`getNotification` runs exactly once and its outcome (converted by `l()`)
is the operation's outcome. -/
lemma sel_build_absent (bldr : NotificationBuilder) (st : HState) (e : Obj)
    (hre : bldr.env.host.callMethod bldr.internal "build" "()Landroid/app/Notification;" []
      = .exc e)
    (hig : bldr.env.host.isInst e bldr.env.no_such_method_exception = true ∨
      bldr.env.host.isInst e bldr.env.no_such_method_error = true) :
    ((bldr.build st).1 =
      (match bldr.env.host.callMethod bldr.internal "getNotification"
          "()Landroid/app/Notification;" [] with
        | .ok v => v.l
        | .exc _ => .error .javaException
        | .err er => .error er)) ∧
    ∃ extra, ((bldr.build st).2).log = st.log ++ extra ∧
      countCall (Call.callMethod bldr.internal "build" "()Landroid/app/Notification;" [])
        extra = 1 ∧
      countCall (Call.callMethod bldr.internal "getNotification"
        "()Landroid/app/Notification;" []) extra = 1 := by
  have hany := any_two hig
  rcases hsim : bldr.env.host.callMethod bldr.internal "getNotification"
      "()Landroid/app/Notification;" [] with v | e2 | er
  all_goals
    refine ⟨?_, ⟨[Call.callMethod bldr.internal "build" "()Landroid/app/Notification;" [],
        Call.exceptionOccurred, Call.exceptionClear] ++
        igLog bldr.env e [bldr.env.no_such_method_exception, bldr.env.no_such_method_error] ++
        [Call.callMethod bldr.internal "getNotification" "()Landroid/app/Notification;" []],
        ?_, ?_, ?_⟩⟩
  · simp only [NotificationBuilder.build, M.bind_apply, CompatEnv.try_call_method,
      CompatEnv.call_method, hre, hsim, selectPath_absent_ok, hany, exceptLift]
  · simp only [NotificationBuilder.build, M.bind_apply, CompatEnv.try_call_method,
      CompatEnv.call_method, hre, hsim, selectPath_absent_ok, hany, exceptLift]
    simp [List.append_assoc]
  · simp [countCall_append, countCall, countCall_igLog_callMethod]
  · simp [countCall_append, countCall, countCall_igLog_callMethod]
  · simp only [NotificationBuilder.build, M.bind_apply, CompatEnv.try_call_method,
      CompatEnv.call_method, hre, hsim, selectPath_absent_exc, hany, exceptLift]
  · simp only [NotificationBuilder.build, M.bind_apply, CompatEnv.try_call_method,
      CompatEnv.call_method, hre, hsim, selectPath_absent_exc, hany, exceptLift]
    simp [List.append_assoc]
  · simp [countCall_append, countCall, countCall_igLog_callMethod]
  · simp [countCall_append, countCall, countCall_igLog_callMethod]
  · simp only [NotificationBuilder.build, M.bind_apply, CompatEnv.try_call_method,
      CompatEnv.call_method, hre, hsim, selectPath_absent_err, hany, exceptLift]
  · simp only [NotificationBuilder.build, M.bind_apply, CompatEnv.try_call_method,
      CompatEnv.call_method, hre, hsim, selectPath_absent_err, hany, exceptLift]
    simp [List.append_assoc]
  · simp [countCall_append, countCall, countCall_igLog_callMethod]
  · simp [countCall_append, countCall, countCall_igLog_callMethod]

/-- `NotificationBuilder::build` when the probe fails with a non-ignored
host exception: the failure propagates, `getNotification` never runs. -/
lemma sel_build_exc_failure (bldr : NotificationBuilder) (st : HState) (e : Obj)
    (hre : bldr.env.host.callMethod bldr.internal "build" "()Landroid/app/Notification;" []
      = .exc e)
    (h1 : bldr.env.host.isInst e bldr.env.no_such_method_exception = false)
    (h2 : bldr.env.host.isInst e bldr.env.no_such_method_error = false) :
    (bldr.build st).1 = .error .javaException ∧
    ∃ extra, ((bldr.build st).2).log = st.log ++ extra ∧
      countCall (Call.callMethod bldr.internal "build" "()Landroid/app/Notification;" [])
        extra = 1 ∧
      countCall (Call.callMethod bldr.internal "getNotification"
        "()Landroid/app/Notification;" []) extra = 0 := by
  have hany : ([bldr.env.no_such_method_exception, bldr.env.no_such_method_error].any
      fun cl => bldr.env.host.isInst e cl) = false := by simp [h1, h2]
  refine ⟨?_, ⟨[Call.callMethod bldr.internal "build" "()Landroid/app/Notification;" [],
      Call.exceptionOccurred, Call.exceptionClear] ++
      igLog bldr.env e [bldr.env.no_such_method_exception, bldr.env.no_such_method_error] ++
      [Call.throwCall e], ?_, ?_, ?_⟩⟩
  · simp only [NotificationBuilder.build, M.bind_apply, CompatEnv.try_call_method,
      CompatEnv.call_method, hre, selectPath_probe_failure, hany, exceptLift]
  · simp only [NotificationBuilder.build, M.bind_apply, CompatEnv.try_call_method,
      CompatEnv.call_method, hre, selectPath_probe_failure, hany, exceptLift]
    simp [List.append_assoc]
  · simp [countCall_append, countCall, countCall_igLog_callMethod]
  · simp [countCall_append, countCall, countCall_igLog_callMethod]

/-- `NotificationBuilder::build` when the probe fails without a host
exception: the failure propagates, `getNotification` never runs. -/
lemma sel_build_err_failure (bldr : NotificationBuilder) (st : HState) (er : JError)
    (hne : er ≠ .javaException)
    (hre : bldr.env.host.callMethod bldr.internal "build" "()Landroid/app/Notification;" []
      = .err er) :
    (bldr.build st).1 = .error er ∧
    ∃ extra, ((bldr.build st).2).log = st.log ++ extra ∧
      countCall (Call.callMethod bldr.internal "build" "()Landroid/app/Notification;" [])
        extra = 1 ∧
      countCall (Call.callMethod bldr.internal "getNotification"
        "()Landroid/app/Notification;" []) extra = 0 := by
  refine ⟨?_, ⟨[Call.callMethod bldr.internal "build" "()Landroid/app/Notification;" []],
      ?_, ?_, ?_⟩⟩
  · simp only [NotificationBuilder.build, M.bind_apply, CompatEnv.try_call_method,
      CompatEnv.call_method, hre, selectPath_probe_err bldr.env _ er _ _ _ hne, exceptLift]
  · simp only [NotificationBuilder.build, M.bind_apply, CompatEnv.try_call_method,
      CompatEnv.call_method, hre, selectPath_probe_err bldr.env _ er _ _ _ hne, exceptLift]
  · simp [countCall_append, countCall]
  · simp [countCall_append, countCall]

/-- `NotificationBuilder::build` when the probe succeeds: the newer
`build` result is used, converted by `l()`; `getNotification` never runs. -/
lemma sel_build_ok (bldr : NotificationBuilder) (st : HState) (v : Val)
    (hre : bldr.env.host.callMethod bldr.internal "build" "()Landroid/app/Notification;" []
      = .ok v) :
    (bldr.build st).1 = v.l ∧
    ∃ extra, ((bldr.build st).2).log = st.log ++ extra ∧
      countCall (Call.callMethod bldr.internal "build" "()Landroid/app/Notification;" [])
        extra = 1 ∧
      countCall (Call.callMethod bldr.internal "getNotification"
        "()Landroid/app/Notification;" []) extra = 0 := by
  refine ⟨?_, ⟨[Call.callMethod bldr.internal "build" "()Landroid/app/Notification;" []],
      ?_, ?_, ?_⟩⟩
  · simp only [NotificationBuilder.build, M.bind_apply, CompatEnv.try_call_method,
      CompatEnv.call_method, hre, selectPath_probe_ok, exceptLift]
  · simp only [NotificationBuilder.build, M.bind_apply, CompatEnv.try_call_method,
      CompatEnv.call_method, hre, selectPath_probe_ok, exceptLift]
  · simp [countCall_append, countCall]
  · simp [countCall_append, countCall]

/-- C5: in both version-gated selectors (`NotificationBuilder::new`
choosing between the channel-id and the context-only constructor, and
`NotificationBuilder::build` choosing between `build` and
`getNotification`), the simpler fallback is invoked exactly when the
richer-path probe reports `Absent`; then it runs exactly once and its
outcome (success or failure) is the operation's outcome.  A probe
`Failure` propagates with the fallback never invoked, and in every case
the richer path runs exactly once, never twice. -/
theorem claim5_version_gated_selector (env : CompatEnv) (cid : String) (st : HState)
    (cls : Cls) (cidObj : Obj)
    (hc : env.host.findClass "android/app/Notification$Builder" = .ok cls)
    (hs : env.host.newString cid = .ok cidObj) :
    (∀ e : Obj,
      env.host.newObject cls "(Landroid/content/Context;Ljava/lang/String;)V"
        [Val.obj env.context, Val.obj cidObj] = .exc e →
      (env.host.isInst e env.no_such_method_exception = true ∨
        env.host.isInst e env.no_such_method_error = true) →
      ((NotificationBuilder.new env cid st).1 =
        (match env.host.newObject cls "(Landroid/content/Context;)V"
            [Val.obj env.context] with
          | .ok b => .ok { internal := b, env := env }
          | .exc _ => .error .javaException
          | .err er => .error er)) ∧
      ∃ extra, ((NotificationBuilder.new env cid st).2).log = st.log ++ extra ∧
        countCall (Call.newObject cls "(Landroid/content/Context;Ljava/lang/String;)V"
          [Val.obj env.context, Val.obj cidObj]) extra = 1 ∧
        countCall (Call.newObject cls "(Landroid/content/Context;)V" [Val.obj env.context])
          extra = 1) ∧
    (∀ e : Obj,
      env.host.newObject cls "(Landroid/content/Context;Ljava/lang/String;)V"
        [Val.obj env.context, Val.obj cidObj] = .exc e →
      env.host.isInst e env.no_such_method_exception = false →
      env.host.isInst e env.no_such_method_error = false →
      (NotificationBuilder.new env cid st).1 = .error .javaException ∧
      ∃ extra, ((NotificationBuilder.new env cid st).2).log = st.log ++ extra ∧
        countCall (Call.newObject cls "(Landroid/content/Context;Ljava/lang/String;)V"
          [Val.obj env.context, Val.obj cidObj]) extra = 1 ∧
        countCall (Call.newObject cls "(Landroid/content/Context;)V" [Val.obj env.context])
          extra = 0) ∧
    (∀ er : JError, er ≠ .javaException →
      env.host.newObject cls "(Landroid/content/Context;Ljava/lang/String;)V"
        [Val.obj env.context, Val.obj cidObj] = .err er →
      (NotificationBuilder.new env cid st).1 = .error er ∧
      ∃ extra, ((NotificationBuilder.new env cid st).2).log = st.log ++ extra ∧
        countCall (Call.newObject cls "(Landroid/content/Context;Ljava/lang/String;)V"
          [Val.obj env.context, Val.obj cidObj]) extra = 1 ∧
        countCall (Call.newObject cls "(Landroid/content/Context;)V" [Val.obj env.context])
          extra = 0) ∧
    (∀ b : Obj,
      env.host.newObject cls "(Landroid/content/Context;Ljava/lang/String;)V"
        [Val.obj env.context, Val.obj cidObj] = .ok b →
      (NotificationBuilder.new env cid st).1 = .ok { internal := b, env := env } ∧
      ∃ extra, ((NotificationBuilder.new env cid st).2).log = st.log ++ extra ∧
        countCall (Call.newObject cls "(Landroid/content/Context;Ljava/lang/String;)V"
          [Val.obj env.context, Val.obj cidObj]) extra = 1 ∧
        countCall (Call.newObject cls "(Landroid/content/Context;)V" [Val.obj env.context])
          extra = 0) ∧
    (∀ (bldr : NotificationBuilder) (st2 : HState) (e : Obj),
      bldr.env.host.callMethod bldr.internal "build" "()Landroid/app/Notification;" []
        = .exc e →
      (bldr.env.host.isInst e bldr.env.no_such_method_exception = true ∨
        bldr.env.host.isInst e bldr.env.no_such_method_error = true) →
      ((bldr.build st2).1 =
        (match bldr.env.host.callMethod bldr.internal "getNotification"
            "()Landroid/app/Notification;" [] with
          | .ok v => v.l
          | .exc _ => .error .javaException
          | .err er => .error er)) ∧
      ∃ extra, ((bldr.build st2).2).log = st2.log ++ extra ∧
        countCall (Call.callMethod bldr.internal "build" "()Landroid/app/Notification;" [])
          extra = 1 ∧
        countCall (Call.callMethod bldr.internal "getNotification"
          "()Landroid/app/Notification;" []) extra = 1) ∧
    (∀ (bldr : NotificationBuilder) (st2 : HState) (e : Obj),
      bldr.env.host.callMethod bldr.internal "build" "()Landroid/app/Notification;" []
        = .exc e →
      bldr.env.host.isInst e bldr.env.no_such_method_exception = false →
      bldr.env.host.isInst e bldr.env.no_such_method_error = false →
      (bldr.build st2).1 = .error .javaException ∧
      ∃ extra, ((bldr.build st2).2).log = st2.log ++ extra ∧
        countCall (Call.callMethod bldr.internal "build" "()Landroid/app/Notification;" [])
          extra = 1 ∧
        countCall (Call.callMethod bldr.internal "getNotification"
          "()Landroid/app/Notification;" []) extra = 0) ∧
    (∀ (bldr : NotificationBuilder) (st2 : HState) (er : JError), er ≠ .javaException →
      bldr.env.host.callMethod bldr.internal "build" "()Landroid/app/Notification;" []
        = .err er →
      (bldr.build st2).1 = .error er ∧
      ∃ extra, ((bldr.build st2).2).log = st2.log ++ extra ∧
        countCall (Call.callMethod bldr.internal "build" "()Landroid/app/Notification;" [])
          extra = 1 ∧
        countCall (Call.callMethod bldr.internal "getNotification"
          "()Landroid/app/Notification;" []) extra = 0) ∧
    (∀ (bldr : NotificationBuilder) (st2 : HState) (v : Val),
      bldr.env.host.callMethod bldr.internal "build" "()Landroid/app/Notification;" []
        = .ok v →
      (bldr.build st2).1 = v.l ∧
      ∃ extra, ((bldr.build st2).2).log = st2.log ++ extra ∧
        countCall (Call.callMethod bldr.internal "build" "()Landroid/app/Notification;" [])
          extra = 1 ∧
        countCall (Call.callMethod bldr.internal "getNotification"
          "()Landroid/app/Notification;" []) extra = 0) := by
  refine ⟨?_, ?_, ?_, ?_, ?_, ?_, ?_, ?_⟩
  · intro e hre hig
    exact sel_new_absent env cid st cls cidObj e hc hs hre hig
  · intro e hre h1 h2
    exact sel_new_exc_failure env cid st cls cidObj e hc hs hre h1 h2
  · intro er hne hre
    exact sel_new_err_failure env cid st cls cidObj er hne hc hs hre
  · intro b hre
    exact sel_new_ok env cid st cls cidObj b hc hs hre
  · intro bldr st2 e hre hig
    exact sel_build_absent bldr st2 e hre hig
  · intro bldr st2 e hre h1 h2
    exact sel_build_exc_failure bldr st2 e hre h1 h2
  · intro bldr st2 er hne hre
    exact sel_build_err_failure bldr st2 er hne hre
  · intro bldr st2 v hre
    exact sel_build_ok bldr st2 v hre

/-- Witness for C5: on a concrete host where the channel-id constructor
and the `build` method are absent, both operations fall back and return
the fallback's successful result. -/
theorem claim5_witness :
    (NotificationBuilder.new envNB "chan" st0).1 =
      .ok { internal := ⟨32⟩, env := envNB } ∧
    (bldrNB.build st0).1 = .ok (⟨33⟩ : Obj) := by
  obtain ⟨hA, hB, hC, hD, hE, hF, hG, hH⟩ :=
    claim5_version_gated_selector envNB "chan" st0 ⟨30⟩ ⟨31⟩ rfl rfl
  constructor
  · rw [(hA objE rfl (Or.inl rfl)).1]
    rfl
  · rw [(hE bldrNB st0 objE rfl (Or.inl rfl)).1]
    rfl

/-- A plain `find_class` only succeeds when the host's lookup succeeds. -/
lemma find_class_ok {env : CompatEnv} {s : String} {st st1 : HState} {c : Cls}
    (h : env.find_class s st = (.ok c, st1)) : env.host.findClass s = .ok c := by
  unfold CompatEnv.find_class rawToM at h
  rcases hr : env.host.findClass s with v | e | e <;> rw [hr] at h <;> simp at h
  rw [h.1]

/-- `try_do` on an `Err` never classifies the call as found: the result is
`Absent` or an error, never `Ok(Some _)`. -/
lemma try_do_error_ne_some {T : Type} (env : CompatEnv) (ignore : List Cls) (er : JError)
    (st : HState) (v : T) :
    ((env.try_do (Except.error er) ignore : M (Option T)) st).1 ≠ .ok (some v) := by
  cases er with
  | javaException =>
      simp only [CompatEnv.try_do, M.bind_apply, CompatEnv.exception_occurred,
        CompatEnv.exception_clear, checkIgnore_eval, CompatEnv.throw, throwM, M.pure_apply]
      cases hany : (ignore.any fun c =>
          env.host.isInst (st.pending.getD Obj.null) c) <;>
        simp [hany, M.pure_apply, M.bind_apply, CompatEnv.throw, throwM]
  | fieldNotFound n s => simp [CompatEnv.try_do, throwM]
  | wrongJValueType => simp [CompatEnv.try_do, throwM]
  | other n => simp [CompatEnv.try_do, throwM]

/-- A probe only reports `Ok(Some v)` when the raw call itself succeeded
with `v`. -/
lemma runProbe_some_inv {T : Type} {env : CompatEnv} {c : Call} {r : RawRes T}
    {ignore : List Cls} {st st1 : HState} {v : T}
    (h : env.runProbe c r ignore st = (.ok (some v), st1)) : r = .ok v := by
  cases r with
  | ok w =>
      rw [runProbe_ok] at h
      simp only [Prod.mk.injEq, Except.ok.injEq, Option.some.injEq] at h
      rw [h.1]
  | exc e =>
      simp only [CompatEnv.runProbe, M.bind_apply, attempt, rawToM] at h
      exact absurd (congrArg Prod.fst h) (try_do_error_ne_some env ignore _ _ v)
  | err e =>
      simp only [CompatEnv.runProbe, M.bind_apply, attempt, rawToM] at h
      exact absurd (congrArg Prod.fst h) (try_do_error_ne_some env ignore _ _ v)

/-- `load_yes` only succeeds when the host returned the constant as an
`int`. -/
lemma loadYes_ok {env : CompatEnv} {intent : Cls} {name : String} {st st1 : HState} {i : Int}
    (h : ActivityFlagLoader.loadYes env intent name st = (.ok i, st1)) :
    env.host.getStaticField intent name "I" = .ok (.int i) := by
  unfold ActivityFlagLoader.loadYes at h
  obtain ⟨r, s2, hf, h⟩ := M.bind_ok h
  cases r with
  | none => simp [throwM] at h
  | some j =>
      simp only [M.pure_apply, Prod.mk.injEq, Except.ok.injEq] at h
      obtain ⟨hji, -⟩ := h
      subst hji
      unfold ActivityFlagLoader.loadField at hf
      obtain ⟨ropt, s3, hp, hf2⟩ := M.bind_ok hf
      unfold CompatEnv.try_get_static_field at hp
      cases ropt with
      | none => simp [M.pure_apply] at hf2
      | some v =>
          have hf3 : (match v.i with
              | Except.ok i2 => (pure (Option.some i2) : M (Option Int))
              | Except.error e3 => throwM e3) s3 = (.ok (some j), s2) := hf2
          rcases hvi : v.i with e2 | n
          · rw [hvi] at hf3
            simp [throwM] at hf3
          · rw [hvi] at hf3
            simp only [M.pure_apply, Prod.mk.injEq, Except.ok.injEq,
              Option.some.injEq] at hf3
            obtain ⟨hnj, -⟩ := hf3
            subst hnj
            have hres := runProbe_some_inv hp
            cases v with
            | int n2 =>
                simp only [Val.i, Except.ok.injEq] at hvi
                rw [hvi] at hres
                exact hres
            | obj o => simp [Val.i] at hvi
            | bool b => simp [Val.i] at hvi

/-- If the loader returns a bag at all, the host must have supplied
`FLAG_ACTIVITY_NEW_TASK` as an `int`. -/
lemma load_ok_new_task {env : CompatEnv} {st st1 : HState} {flags : ActivityFlags}
    (h : ActivityFlagLoader.load env st = (.ok flags, st1)) :
    ∃ (cls : Cls) (i : Int), env.host.findClass "android/content/Intent" = .ok cls ∧
      env.host.getStaticField cls "FLAG_ACTIVITY_NEW_TASK" "I" = .ok (.int i) := by
  unfold ActivityFlagLoader.load at h
  obtain ⟨intent, s1, hfc, h⟩ := M.bind_ok h
  obtain ⟨x1, s2, -, h⟩ := M.bind_ok h
  obtain ⟨x2, s3, -, h⟩ := M.bind_ok h
  obtain ⟨x3, s4, -, h⟩ := M.bind_ok h
  obtain ⟨x4, s5, -, h⟩ := M.bind_ok h
  obtain ⟨x5, s6, -, h⟩ := M.bind_ok h
  obtain ⟨x6, s7, -, h⟩ := M.bind_ok h
  obtain ⟨x7, s8, -, h⟩ := M.bind_ok h
  obtain ⟨x8, s9, -, h⟩ := M.bind_ok h
  obtain ⟨x9, s10, -, h⟩ := M.bind_ok h
  obtain ⟨x10, s11, -, h⟩ := M.bind_ok h
  obtain ⟨x11, s12, -, h⟩ := M.bind_ok h
  obtain ⟨x12, s13, hnt, h⟩ := M.bind_ok h
  exact ⟨intent, x12, find_class_ok hfc, loadYes_ok hnt⟩

/-- C8: on any host where the probe for the always-present constant
`FLAG_ACTIVITY_NEW_TASK` reports `Absent` (its lookup fails with a
field-not-found exception), the first-use population of the constant bag
ends in a panic: `activity_flags` never returns a (partial) bag. -/
theorem claim8_always_present_absent_is_fatal (env : CompatEnv) (st : HState)
    (h : ∀ cls : Cls, env.host.findClass "android/content/Intent" = .ok cls →
      ∃ e : Obj, env.host.getStaticField cls "FLAG_ACTIVITY_NEW_TASK" "I" = .exc e ∧
        (env.host.isInst e env.no_such_field_exception = true ∨
          env.host.isInst e env.no_such_field_error = true)) :
    ∃ (e2 : JError) (st1 : HState), activity_flags env none st = .fatal e2 st1 := by
  rcases hload : ActivityFlagLoader.load env st with ⟨r, st1⟩
  cases r with
  | error e2 => exact ⟨e2, st1, by simp [activity_flags, hload]⟩
  | ok flags =>
      obtain ⟨cls, i, hfc, hgs⟩ := load_ok_new_task hload
      obtain ⟨e, hexc, -⟩ := h cls hfc
      rw [hgs] at hexc
      simp at hexc

/-- Witness for C8 on a concrete host where `FLAG_ACTIVITY_NEW_TASK` is
absent but every other constant is present. -/
theorem claim8_witness :
    ∃ (e2 : JError) (st1 : HState), activity_flags envNT none st0 = .fatal e2 st1 := by
  apply claim8_always_present_absent_is_fatal envNT st0
  intro cls hc
  rw [show envNT.host.findClass "android/content/Intent" = .ok ⟨40⟩ from rfl] at hc
  cases hc
  exact ⟨objE, rfl, Or.inl rfl⟩

/-- C10: `activity_flags` panics on ANY error from the loader — a failed
`Intent` lookup or a genuine `Failure` probing an optional constant
included — and never surfaces a load error as a recoverable result. -/
theorem claim10_activity_flags_panics_on_any_error (env : CompatEnv) (st : HState)
    (e : JError) (st1 : HState)
    (h : ActivityFlagLoader.load env st = (.error e, st1)) :
    activity_flags env none st = .fatal e st1 := by
  simp [activity_flags, h]

/-- Witness for C10 on a concrete host whose `Intent` lookup fails. -/
theorem claim10_witness :
    activity_flags envIntentFail none st0 =
      .fatal (.other 3) ((ActivityFlagLoader.load envIntentFail st0).2) :=
  claim10_activity_flags_panics_on_any_error envIntentFail st0 (.other 3) _ rfl

end Android
